import Mathlib

/-!
# ScreenCaptureGL: a shallow embedding of `include/screencapture/ScreenCaptureGL.h`

The header implements an OpenGL drawer for captured screen frames.  The
embedding follows the C++ source function by function:

* the class-level statics (`prog`, `vert`, `frag`, `vao`, the four uniform
  locations) are the record `Statics`;
* the per-object fields (`settings`, `pixels`, `has_new_frame`, `tex0`,
  `tex1`, `pm`, `vm`) are the record `ScreenCaptureGL`;
* every call that leaves the header (OpenGL, pthread, the capture source
  `cap`, `new[]`/`delete[]`) is appended to a chronological log of `Event`s;
  what such a call answers is read from a `Platform`, as a function of the
  log so far, so nothing is assumed about the graphics driver or the capturer;
* `none` as the result of an operation means that the C++ program does not
  continue in a defined way there (a failed `assert` in a debug build, a
  `memcpy` outside its buffers, or a shader info log written into the
  zero-size block of `print_shader_compile_info`).

`printf` output and the text of shader info logs are not modelled; of an
info log only the number of bytes the driver writes is.
Operations are modelled at the granularity of whole calls: the instance
mutex serialises the frame callback and `update()`.
-/

namespace sc

/-! ## Types that the header takes from `screencapture/ScreenCapture.h` -/

/-- Modelled from the spec: the pixel-format tag of `Types.h`, which is not
part of the sources at hand.  The header compares a tag only with `SC_NONE`
and `SC_BGRA`; every further tag is `other n`. -/
inductive PixelFormat
  | SC_NONE
  | SC_BGRA
  | other (tag : Nat)
deriving DecidableEq

/-- Modelled from the spec: the settings record of `Types.h` (output width,
output height, pixel-format tag).  Width and height are C++ `int`s (the
header prints them with `%d` and tests `0 > settings.output_width`). -/
structure Settings where
  pixel_format : PixelFormat
  output_width : Int
  output_height : Int
deriving DecidableEq

/-- A `uint8_t`. -/
abbrev Byte := Fin 256

/-- A `float` value.  The header only stores literals (`0.0`, `1.0`, `2.0f`,
`100.0f`), copies of arguments and the results of `create_ortho_matrix`;
the arithmetic of the latter is taken from the `Platform`. -/
abbrev GLfloat := Rat

/-- Modelled from the spec: the frame record `PixelBuffer` of `Types.h`, as far
as `sc_gl_frame_callback` reads it.  `plane0` is `plane[0]`: `none` for a NULL
pointer, otherwise the bytes readable at the pointer; `nbytes0` is
`nbytes[0]`; `user` tells whether `buffer.user` is non-NULL (it then points
to the instance the callback is applied to). -/
structure PixelBuffer where
  pixel_format : PixelFormat
  plane0 : Option (List Byte)
  nbytes0 : Nat
  user : Bool
deriving DecidableEq

/-! ## Calls that leave the header -/

inductive ShaderType
  | GL_VERTEX_SHADER
  | GL_FRAGMENT_SHADER
deriving DecidableEq

/-- The two shader sources of the header. -/
inductive ShaderSrc
  | SCREENCAPTURE_GL_VS
  | SCREENCAPTURE_GL_FS_BGRA
deriving DecidableEq

inductive GLParam
  | GL_COMPILE_STATUS
  | GL_LINK_STATUS
  | GL_INFO_LOG_LENGTH
  | GL_TEXTURE_WRAP_S
  | GL_TEXTURE_WRAP_T
  | GL_TEXTURE_MIN_FILTER
  | GL_TEXTURE_MAG_FILTER
deriving DecidableEq

/-- One call that leaves the header, with the arguments the header passes. -/
inductive Event
  | pthread_mutex_init
  | pthread_mutex_destroy
  | pthread_mutex_lock
  | pthread_mutex_unlock
  | cap_init
  | cap_shutdown
  | cap_configure (cfg : Settings)
  | cap_start
  | cap_stop
  | new_array (nbytes : Nat)
  | delete_array
  | glUseProgram (p : Nat)
  | glUniformMatrix4fv (loc : Int) (m : List GLfloat)
  | glUniform1i (loc : Int) (v : Int)
  | glUniform1fv (loc : Int) (count : Nat) (v : List GLfloat)
  | glDeleteTextures (tex : Nat)
  | glGenVertexArrays
  | glGenTextures
  | glBindTexture (tex : Nat)
  | glTexImage2D (width height : Int)
  | glTexParameteri (pname : GLParam)
  | glTexSubImage2D (width height : Int) (data : Option (List Byte))
  | glActiveTexture
  | glBindVertexArray (vao : Nat)
  | glDrawArrays (first count : Nat)
  | glCreateShader (type : ShaderType)
  | glShaderSource (shader : Nat) (src : ShaderSrc)
  | glCompileShader (shader : Nat)
  | glGetShaderiv (shader : Nat) (pname : GLParam)
  | glGetShaderInfoLog (shader : Nat)
  | glDeleteShader (shader : Nat)
  | glCreateProgram
  | glAttachShader (p shader : Nat)
  | glLinkProgram (p : Nat)
  | glGetProgramiv (p : Nat) (pname : GLParam)
  | glGetProgramInfoLog (p : Nat)
  | glGetUniformLocation (p : Nat) (name : String)
  | glGetIntegerv_VIEWPORT
deriving DecidableEq

/-- Everything the header does not decide itself: the build flag `NDEBUG`,
what each outside call answers given the log of calls made before it
(`shader_info_log_written` is the number of bytes `glGetShaderInfoLog` stores
through the pointer it is given), and the `float` arithmetic used by
`create_ortho_matrix`. -/
structure Platform where
  ndebug : Bool
  pthread_mutex_init : List Event → Int
  pthread_mutex_destroy : List Event → Int
  pthread_mutex_lock : List Event → Int
  pthread_mutex_unlock : List Event → Int
  cap_init : List Event → Int
  cap_shutdown : List Event → Int
  cap_configure : List Event → Settings → Int
  cap_start : List Event → Int
  cap_stop : List Event → Int
  glCreateShader : List Event → ShaderType → Nat
  compile_status : List Event → Nat → Int
  shader_info_log_length : List Event → Nat → Int
  shader_info_log_written : List Event → Nat → Nat
  glCreateProgram : List Event → Nat
  link_status : List Event → Nat → Int
  program_info_log_length : List Event → Nat → Int
  program_info_log_nchars : List Event → Nat → Int
  glGetUniformLocation : List Event → Nat → String → Int
  viewport : List Event → Int × Int × Int × Int
  glGenTextures : List Event → Nat
  glGenVertexArrays : List Event → Nat
  int_to_float : Int → GLfloat
  fadd : GLfloat → GLfloat → GLfloat
  fsub : GLfloat → GLfloat → GLfloat
  fdiv : GLfloat → GLfloat → GLfloat
  fneg : GLfloat → GLfloat

/-! ## State -/

/-- The static members of `ScreenCaptureGL`, shared by all instances. -/
structure Statics where
  prog : Nat
  vert : Nat
  frag : Nat
  vao : Nat
  u_pm : Int
  u_vm : Int
  u_texcoords : Int
  u_tex : Int
deriving DecidableEq

/-- The initialisers of the statics (lines 250-257). -/
def Statics.initial : Statics :=
  { prog := 0, vert := 0, frag := 0, vao := 0,
    u_pm := -1, u_vm := -1, u_texcoords := -1, u_tex := -1 }

/-- The process-wide state: the statics and the log of outside calls. -/
structure World where
  st : Statics
  log : List Event
deriving DecidableEq

/-- Append one outside call to the log. -/
def World.emit (w : World) (e : Event) : World :=
  { w with log := w.log ++ [e] }

/-- The non-static data members of `ScreenCaptureGL` (the mutex and the
capturer `cap` live outside the header and show up in the log only). -/
structure ScreenCaptureGL where
  settings : Settings
  pixels : Option (List Byte)
  has_new_frame : Bool
  tex0 : Nat
  tex1 : Nat
  pm : List GLfloat
  vm : List GLfloat
deriving DecidableEq

/-- The constructor (lines 261-270); `defaults` is what `Settings()` yields. -/
def ScreenCaptureGL.new (defaults : Settings) : ScreenCaptureGL :=
  { settings := defaults, pixels := none, has_new_frame := false,
    tex0 := 0, tex1 := 0,
    pm := List.replicate 16 0, vm := List.replicate 16 0 }

/-- The value a `GLuint` holds after `x = -1`. -/
def GLuint_minus_one : Nat := 4294967295

/-! ## Machine arithmetic of `configure` -/

/-- The value of an `int` expression whose exact result is `z`.  Within the
range of `int` it is `z`; outside, where C++ leaves the result undefined, it
is the two's-complement wrap-around to 32 bits that compilers produce. -/
def wrap_int (z : Int) : Int := (z + 2147483648) % 4294967296 - 2147483648

/-- Conversion of an `int` to a 64-bit `size_t`. -/
def to_size_t (z : Int) : Nat := (z % 18446744073709551616).toNat

/-- The expression `cfg.output_width * cfg.output_height * 4` assigned to the
`size_t nbytes` in `configure` (line 343). -/
def configure_nbytes (cfg : Settings) : Nat :=
  to_size_t (wrap_int (wrap_int (cfg.output_width * cfg.output_height) * 4))

/-! ## Cross platform mutex (pthread variant, lines 748-784) -/

def sc_gl_create_mutex (P : Platform) (w : World) : Int × World :=
  if P.pthread_mutex_init w.log ≠ 0 then (-1, w.emit Event.pthread_mutex_init)
  else (0, w.emit Event.pthread_mutex_init)

def sc_gl_lock_mutex (P : Platform) (w : World) : Int × World :=
  if P.pthread_mutex_lock w.log ≠ 0 then (-1, w.emit Event.pthread_mutex_lock)
  else (0, w.emit Event.pthread_mutex_lock)

def sc_gl_unlock_mutex (P : Platform) (w : World) : Int × World :=
  if P.pthread_mutex_unlock w.log ≠ 0 then (-1, w.emit Event.pthread_mutex_unlock)
  else (0, w.emit Event.pthread_mutex_unlock)

def sc_gl_destroy_mutex (P : Platform) (w : World) : Int × World :=
  if P.pthread_mutex_destroy w.log ≠ 0 then (-2, w.emit Event.pthread_mutex_destroy)
  else (0, w.emit Event.pthread_mutex_destroy)

/-! ## Embeddable math (lines 580-617) -/

def create_ortho_matrix (P : Platform) (l r b t n f : GLfloat) : List GLfloat :=
  let rml := P.fsub r l
  let fmn := P.fsub f n
  let tmb := P.fsub t b
  [ P.fdiv 2 rml, 0, 0, 0,
    0, P.fdiv 2 tmb, 0, 0,
    0, 0, P.fdiv (-2) fmn, 0,
    P.fdiv (P.fneg (P.fadd r l)) rml, P.fdiv (P.fneg (P.fadd t b)) tmb,
      P.fdiv (P.fneg (P.fadd f n)) fmn, 1 ]

def create_identity_matrix : List GLfloat :=
  [ 1, 0, 0, 0,
    0, 1, 0, 0,
    0, 0, 1, 0,
    0, 0, 0, 1 ]

def create_translation_matrix (x y z : GLfloat) : List GLfloat :=
  [ 1, 0, 0, 0,
    0, 1, 0, 0,
    0, 0, 1, 0,
    x, y, z, 1 ]

/-! ## Embeddable OpenGL wrappers (lines 623-718) -/

/-- Lines 690-718: `0` when the shader compiled (or the info log is empty),
`-1` otherwise.  The buffer `error` is obtained by `malloc(count)` at line
701, before line 702 reads the log length into `count`, so it has 0 bytes:
when `glGetShaderInfoLog` (line 709) stores any byte through it, the write is
outside the block and the result is `none`. -/
def print_shader_compile_info (P : Platform) (shader : Nat) (w : World) :
    Option (Int × World) :=
  let w1 := w.emit (Event.glGetShaderiv shader GLParam.GL_COMPILE_STATUS)
  if P.compile_status w.log shader ≠ 0 then some (0, w1)
  else
    let w2 := w1.emit (Event.glGetShaderiv shader GLParam.GL_INFO_LOG_LENGTH)
    if P.shader_info_log_length w1.log shader ≤ 0 then some (0, w2)
    else if P.shader_info_log_written w2.log shader ≠ 0 then none
    else some (-1, w2.emit (Event.glGetShaderInfoLog shader))

/-- Lines 655-687. -/
def print_program_link_info (P : Platform) (prog : Nat) (w : World) : Int × World :=
  let w1 := w.emit (Event.glGetProgramiv prog GLParam.GL_LINK_STATUS)
  if P.link_status w.log prog ≠ 0 then (0, w1)
  else
    let w2 := w1.emit (Event.glGetProgramiv prog GLParam.GL_INFO_LOG_LENGTH)
    if P.program_info_log_length w1.log prog ≤ 0 then (0, w2)
    else
      let w3 := w2.emit (Event.glGetProgramInfoLog prog)
      if P.program_info_log_nchars w2.log prog ≤ 0 then (-1, w3) else (-1, w3)

/-- Lines 623-635.  The result is the status, the value left in `*out`, and
the world. -/
def create_shader (P : Platform) (type : ShaderType) (src : ShaderSrc) (w : World) :
    Option (Int × Nat × World) :=
  let out := P.glCreateShader w.log type
  let w1 := ((w.emit (Event.glCreateShader type)).emit (Event.glShaderSource out src)).emit
    (Event.glCompileShader out)
  match print_shader_compile_info P out w1 with
  | none => none
  | some r => if r.1 ≠ 0 then some (-1, 0, r.2) else some (0, out, r.2)

/-- Lines 638-652.  The result is the status, the value left in `*out`, and
the world. -/
def create_program (P : Platform) (vert frag : Nat) (link : Int) (w : World) :
    Int × Nat × World :=
  let out := P.glCreateProgram w.log
  let w1 := ((w.emit Event.glCreateProgram).emit (Event.glAttachShader out vert)).emit
    (Event.glAttachShader out frag)
  if link = 1 then
    let r := print_program_link_info P out (w1.emit (Event.glLinkProgram out))
    if r.1 ≠ 0 then (-1, 0, r.2) else (0, out, r.2)
  else (0, out, w1)

/-! ## The class `ScreenCaptureGL` -/

/-- Lines 191-193. -/
def ScreenCaptureGL.start (P : Platform) (w : World) : Int × World :=
  (P.cap_start w.log, w.emit Event.cap_start)

/-- Lines 195-197. -/
def ScreenCaptureGL.stop (P : Platform) (w : World) : Int × World :=
  (P.cap_stop w.log, w.emit Event.cap_stop)

/-- Lines 199-219; `projection` is `none` for a NULL pointer, otherwise the
sixteen floats at the pointer. -/
def ScreenCaptureGL.setProjectionMatrix (P : Platform) (projection : Option (List GLfloat))
    (w : World) (gl : ScreenCaptureGL) : Int × World × ScreenCaptureGL :=
  if P.ndebug = false ∧ w.st.prog = 0 then (-1, w, gl)
  else
    match projection with
    | none => (-2, w, gl)
    | some m =>
      let m16 := m.take 16
      (0, (w.emit (Event.glUseProgram w.st.prog)).emit (Event.glUniformMatrix4fv w.st.u_pm m16),
        { gl with pm := m16 })

/-- Lines 277-288. -/
def ScreenCaptureGL.init (P : Platform) (w : World) : Int × World :=
  let m := sc_gl_create_mutex P w
  if m.1 ≠ 0 then (-1, m.2)
  else if P.cap_init m.2.log ≠ 0 then (-1, m.2.emit Event.cap_init)
  else (0, m.2.emit Event.cap_init)

/-- Lines 290-320. -/
def ScreenCaptureGL.shutdown (P : Platform) (w : World) (gl : ScreenCaptureGL) :
    Int × World × ScreenCaptureGL :=
  let m := sc_gl_destroy_mutex P w
  let r1 : Int := if m.1 ≠ 0 then 0 - 1 else 0
  let w1 := m.2.emit Event.cap_shutdown
  let r2 : Int := if P.cap_shutdown m.2.log ≠ 0 then r1 - 2 else r1
  let w2 := if gl.pixels ≠ none then w1.emit Event.delete_array else w1
  let w3 := if gl.tex0 ≠ 0 then w2.emit (Event.glDeleteTextures gl.tex0) else w2
  let w4 := if gl.tex1 ≠ 0 then w3.emit (Event.glDeleteTextures gl.tex1) else w3
  (r2, w4, { gl with pixels := none, tex0 := 0, tex1 := 0, has_new_frame := false })

/-- The four coordinate arrays of `flip` (lines 537-540). -/
def tex_normal : List GLfloat := [0, 0, 0, 1, 1, 0, 1, 1]

def tex_vert : List GLfloat := [0, 1, 0, 0, 1, 1, 1, 0]

def tex_hori : List GLfloat := [1, 0, 1, 1, 0, 0, 0, 1]

def tex_verthori : List GLfloat := [1, 1, 1, 0, 0, 1, 0, 0]

/-- The pointer `texcoords` after the selection of lines 552-563 (`none` is
NULL). -/
def flip_texcoords (horizontal vertical : Bool) : Option (List GLfloat) :=
  if horizontal = false ∧ vertical = false then some tex_normal
  else if horizontal = false ∧ vertical = true then some tex_vert
  else if horizontal = true ∧ vertical = false then some tex_hori
  else if horizontal = true ∧ vertical = true then some tex_verthori
  else none

/-- Lines 533-574.  `flip` reads the statics only. -/
def ScreenCaptureGL.flip (horizontal vertical : Bool) (w : World) : Int × World :=
  if w.st.prog = 0 then (-1, w)
  else if w.st.u_texcoords = -1 then (-2, w)
  else
    match flip_texcoords horizontal vertical with
    | none => (-2, w)
    | some texcoords =>
      (0, (w.emit (Event.glUseProgram w.st.prog)).emit
        (Event.glUniform1fv w.st.u_texcoords 8 texcoords))

/-- Lines 449-482. -/
def ScreenCaptureGL.setupTextures (P : Platform) (w : World) (gl : ScreenCaptureGL) :
    Int × World × ScreenCaptureGL :=
  if 0 > gl.settings.output_width then (-1, w, gl)
  else if 0 > gl.settings.output_height then (-2, w, gl)
  else if gl.settings.pixel_format = PixelFormat.SC_BGRA then
    if gl.tex0 ≠ 0 then (-3, w, gl)
    else
      let t := P.glGenTextures w.log
      let w1 := (w.emit Event.glGenTextures).emit (Event.glBindTexture t)
      let w2 := w1.emit (Event.glTexImage2D gl.settings.output_width gl.settings.output_height)
      let w3 := (w2.emit (Event.glTexParameteri GLParam.GL_TEXTURE_WRAP_S)).emit
        (Event.glTexParameteri GLParam.GL_TEXTURE_WRAP_T)
      let w4 := (w3.emit (Event.glTexParameteri GLParam.GL_TEXTURE_MIN_FILTER)).emit
        (Event.glTexParameteri GLParam.GL_TEXTURE_MAG_FILTER)
      (0, w4, { gl with tex0 := t })
  else (-4, w, gl)

/-- Lines 428-446 of `setupShaders`, entered once the program is created. -/
def setupShaders_uniforms (P : Platform) (w : World) (gl : ScreenCaptureGL) :
    Option (Int × World × ScreenCaptureGL) :=
  let p := w.st.prog
  let w1 := w.emit (Event.glUseProgram p)
  let l_pm := P.glGetUniformLocation w1.log p "u_pm"
  let w2 := w1.emit (Event.glGetUniformLocation p "u_pm")
  let l_vm := P.glGetUniformLocation w2.log p "u_vm"
  let w3 := w2.emit (Event.glGetUniformLocation p "u_vm")
  let l_texcoords := P.glGetUniformLocation w3.log p "u_texcoords"
  let w4 := w3.emit (Event.glGetUniformLocation p "u_texcoords")
  let l_tex := P.glGetUniformLocation w4.log p "u_tex"
  let w5 := w4.emit (Event.glGetUniformLocation p "u_tex")
  let w6 : World :=
    { w5 with st := { w5.st with u_pm := l_pm, u_vm := l_vm,
                                 u_texcoords := l_texcoords, u_tex := l_tex } }
  if P.ndebug = false ∧ (l_pm = -1 ∨ l_vm = -1 ∨ l_texcoords = -1 ∨ l_tex = -1) then none
  else
    let vp := P.viewport w6.log
    let w7 := w6.emit Event.glGetIntegerv_VIEWPORT
    let pm := create_ortho_matrix P 0 (P.int_to_float vp.2.2.1) (P.int_to_float vp.2.2.2)
      0 0 100
    let w8 := (w7.emit (Event.glUniformMatrix4fv l_pm pm)).emit (Event.glUniform1i l_tex 0)
    some (0, w8, { gl with pm := pm })

/-- Lines 387-447. -/
def ScreenCaptureGL.setupShaders (P : Platform) (w : World) (gl : ScreenCaptureGL) :
    Option (Int × World × ScreenCaptureGL) :=
  if w.st.prog ≠ 0 then some (-1, w, gl)
  else if gl.settings.pixel_format = PixelFormat.SC_NONE then some (-2, w, gl)
  else
    match create_shader P ShaderType.GL_VERTEX_SHADER ShaderSrc.SCREENCAPTURE_GL_VS w with
    | none => none
    | some cv =>
      let wv : World := { cv.2.2 with st := { cv.2.2.st with vert := cv.2.1 } }
      if cv.1 ≠ 0 then some (-2, wv, gl)
      else if gl.settings.pixel_format = PixelFormat.SC_BGRA then
        match create_shader P ShaderType.GL_FRAGMENT_SHADER
            ShaderSrc.SCREENCAPTURE_GL_FS_BGRA wv with
        | none => none
        | some cf =>
          let wf : World := { cf.2.2 with st := { cf.2.2.st with frag := cf.2.1 } }
          if cf.1 ≠ 0 then some (-3, wf, gl)
          else
            let cp := create_program P wf.st.vert wf.st.frag 1 wf
            let wp : World := { cp.2.2 with st := { cp.2.2.st with prog := cp.2.1 } }
            if cp.1 ≠ 0 then
              let wd := (wp.emit (Event.glDeleteShader wp.st.vert)).emit
                (Event.glDeleteShader wp.st.frag)
              some (-5, { wd with st := { wd.st with vert := GLuint_minus_one,
                                                     frag := GLuint_minus_one } }, gl)
            else setupShaders_uniforms P wp gl
      else
        let wd := wv.emit (Event.glDeleteShader wv.st.vert)
        some (-4, { wd with st := { wd.st with vert := GLuint_minus_one } }, gl)

/-- Lines 359-385. -/
def ScreenCaptureGL.setupGraphics (P : Platform) (w : World) (gl : ScreenCaptureGL) :
    Option (Int × World × ScreenCaptureGL) :=
  let afterShaders : Option (Int × World × ScreenCaptureGL) :=
    if w.st.prog = 0 then ScreenCaptureGL.setupShaders P w gl else some (0, w, gl)
  match afterShaders with
  | none => none
  | some (rs, ws, gls) =>
    if rs ≠ 0 then some (-1, ws, gls)
    else
      let t : Int × World × ScreenCaptureGL :=
        if gls.tex0 = 0 then ScreenCaptureGL.setupTextures P ws gls else (0, ws, gls)
      if t.1 ≠ 0 then some (-2, t.2.1, t.2.2)
      else
        let wt := t.2.1
        let wa : World :=
          if wt.st.vao = 0 then
            { (wt.emit Event.glGenVertexArrays) with
                st := { wt.st with vao := P.glGenVertexArrays wt.log } }
          else wt
        let glv : ScreenCaptureGL := { t.2.2 with vm := create_identity_matrix }
        let f := ScreenCaptureGL.flip false true wa
        if f.1 ≠ 0 then some (-3, f.2, glv) else some (0, f.2, glv)

/-- Lines 322-357. -/
def ScreenCaptureGL.configure (P : Platform) (cfg : Settings) (w : World)
    (gl : ScreenCaptureGL) : Option (Int × World × ScreenCaptureGL) :=
  let gl1 : ScreenCaptureGL := { gl with settings := cfg }
  if cfg.pixel_format ≠ PixelFormat.SC_BGRA then some (-1, w, gl1)
  else
    let w1 := w.emit (Event.cap_configure cfg)
    if P.cap_configure w.log cfg ≠ 0 then some (-2, w1, gl1)
    else
      let w2 := if gl1.pixels ≠ none then w1.emit Event.delete_array else w1
      if cfg.pixel_format = PixelFormat.SC_BGRA then
        let nbytes := configure_nbytes cfg
        let w3 := w2.emit (Event.new_array nbytes)
        let gl3 : ScreenCaptureGL := { gl1 with pixels := some (List.replicate nbytes 0) }
        match ScreenCaptureGL.setupGraphics P w3 gl3 with
        | none => none
        | some (r, w4, gl4) => if r ≠ 0 then some (-4, w4, gl4) else some (0, w4, gl4)
      else some (-3, w2, { gl1 with pixels := none })

/-- Lines 484-495.  The upload event carries the staging buffer handed to
`glTexSubImage2D`. -/
def ScreenCaptureGL.update (P : Platform) (w : World) (gl : ScreenCaptureGL) :
    World × ScreenCaptureGL :=
  let w1 := (sc_gl_lock_mutex P w).2
  if gl.has_new_frame = true then
    let w2 := (w1.emit (Event.glBindTexture gl.tex0)).emit
      (Event.glTexSubImage2D gl.settings.output_width gl.settings.output_height gl.pixels)
    ((sc_gl_unlock_mutex P w2).2, { gl with has_new_frame := false })
  else ((sc_gl_unlock_mutex P w1).2, gl)

/-- Lines 501-531. -/
def ScreenCaptureGL.draw (P : Platform) (x y w h : GLfloat) (s : World)
    (gl : ScreenCaptureGL) : World × ScreenCaptureGL :=
  if P.ndebug = false ∧ s.st.prog = 0 then (s, gl)
  else if gl.settings.pixel_format = PixelFormat.SC_BGRA then
    let s1 := (s.emit Event.glActiveTexture).emit (Event.glBindTexture gl.tex0)
    let vm := (((gl.vm.set 0 w).set 5 h).set 12 x).set 13 y
    let s2 := (s1.emit (Event.glUseProgram s.st.prog)).emit (Event.glBindVertexArray s.st.vao)
    let s3 := (s2.emit (Event.glUniformMatrix4fv s.st.u_vm vm)).emit (Event.glDrawArrays 0 6)
    (s3, { gl with vm := vm })
  else (s, gl)

/-- Lines 497-499. -/
def ScreenCaptureGL.draw_default (P : Platform) (s : World) (gl : ScreenCaptureGL) :
    World × ScreenCaptureGL :=
  ScreenCaptureGL.draw P 0 0 (P.int_to_float gl.settings.output_width)
    (P.int_to_float gl.settings.output_height) s gl

/-- The `memcpy(dst, src, n)` of the frame callback: defined when `n` bytes
fit both buffers. -/
def memcpy (dst src : List Byte) (n : Nat) : Option (List Byte) :=
  if n ≤ dst.length ∧ n ≤ src.length then some (src.take n ++ dst.drop n) else none

/-- Lines 791-819, applied to the instance `buffer.user` points to. -/
def sc_gl_frame_callback (P : Platform) (buffer : PixelBuffer) (w : World)
    (gl : ScreenCaptureGL) : Option (World × ScreenCaptureGL) :=
  if buffer.user = false then some (w, gl)
  else if buffer.pixel_format = PixelFormat.SC_BGRA then
    if buffer.nbytes0 = 0 then some (w, gl)
    else
      match buffer.plane0 with
      | none => some (w, gl)
      | some src =>
        let w1 := (sc_gl_lock_mutex P w).2
        match gl.pixels with
        | none => none
        | some dst =>
          match memcpy dst src buffer.nbytes0 with
          | none => none
          | some px =>
            some ((sc_gl_unlock_mutex P w1).2,
              { gl with pixels := some px, has_new_frame := true })
  else some (w, gl)

/-- Deliver a sequence of frames to the frame callback, in order. -/
def deliver (P : Platform) : List PixelBuffer → World → ScreenCaptureGL →
    Option (World × ScreenCaptureGL)
  | [], w, gl => some (w, gl)
  | b :: bs, w, gl =>
    match sc_gl_frame_callback P b w gl with
    | none => none
    | some r => deliver P bs r.1 r.2

/-! ## Sequences of operations on one instance -/

/-- The operations a client (or the capture source) applies to one instance. -/
inductive Op
  | init
  | configure (cfg : Settings)
  | frame (buffer : PixelBuffer)
  | update
  | draw (x y w h : GLfloat)
  | flip (horizontal vertical : Bool)
  | shutdown

/-- One operation: its status (`0` for the `void` ones), and the state after
it; `none` when the program does not continue in a defined way. -/
def Op.apply (P : Platform) (op : Op) (w : World) (gl : ScreenCaptureGL) :
    Option (Int × World × ScreenCaptureGL) :=
  match op with
  | Op.init => some ((ScreenCaptureGL.init P w).1, (ScreenCaptureGL.init P w).2, gl)
  | Op.configure cfg => ScreenCaptureGL.configure P cfg w gl
  | Op.frame buffer => (sc_gl_frame_callback P buffer w gl).map (fun r => (0, r.1, r.2))
  | Op.update => some (0, (ScreenCaptureGL.update P w gl).1, (ScreenCaptureGL.update P w gl).2)
  | Op.draw x y wd h =>
    some (0, (ScreenCaptureGL.draw P x y wd h w gl).1, (ScreenCaptureGL.draw P x y wd h w gl).2)
  | Op.flip horizontal vertical =>
    some ((ScreenCaptureGL.flip horizontal vertical w).1,
      (ScreenCaptureGL.flip horizontal vertical w).2, gl)
  | Op.shutdown => some (ScreenCaptureGL.shutdown P w gl)

/-- The states an instance reaches from its construction (in any world: other
instances may have run before) by a sequence of operations. -/
inductive Reachable (P : Platform) : World → ScreenCaptureGL → Prop
  | fresh (w : World) (defaults : Settings) : Reachable P w (ScreenCaptureGL.new defaults)
  | step {w : World} {gl : ScreenCaptureGL} (op : Op) {r : Int} {w1 : World}
      {gl1 : ScreenCaptureGL} :
      Reachable P w gl → op.apply P w gl = some (r, w1, gl1) → Reachable P w1 gl1

/-! ## Concrete platforms and inputs used in witnesses and counterexamples -/

/-- A platform on which every outside call succeeds: debug build, fresh
non-zero object names, all uniforms found, an 800x600 viewport and exact
arithmetic. -/
def Platform.ok : Platform :=
  { ndebug := false,
    pthread_mutex_init := fun _ => 0, pthread_mutex_destroy := fun _ => 0,
    pthread_mutex_lock := fun _ => 0, pthread_mutex_unlock := fun _ => 0,
    cap_init := fun _ => 0, cap_shutdown := fun _ => 0, cap_configure := fun _ _ => 0,
    cap_start := fun _ => 0, cap_stop := fun _ => 0,
    glCreateShader := fun log _ => log.length + 1,
    compile_status := fun _ _ => 1, shader_info_log_length := fun _ _ => 0,
    shader_info_log_written := fun _ _ => 0,
    glCreateProgram := fun log => log.length + 1,
    link_status := fun _ _ => 1, program_info_log_length := fun _ _ => 0,
    program_info_log_nchars := fun _ _ => 0,
    glGetUniformLocation := fun _ _ name =>
      if name = "u_pm" then 0 else if name = "u_vm" then 1
      else if name = "u_texcoords" then 2 else if name = "u_tex" then 10 else -1,
    viewport := fun _ => (0, 0, 800, 600),
    glGenTextures := fun log => log.length + 1,
    glGenVertexArrays := fun log => log.length + 1,
    int_to_float := fun z => z, fadd := fun a b => a + b, fsub := fun a b => a - b,
    fdiv := fun a b => a / b, fneg := fun a => -a }

/-- The world at process start: the statics hold their initialisers and no
outside call has been made. -/
def World.initial : World := { st := Statics.initial, log := [] }

/-- A settings record as a default constructor may leave it. -/
def settings_none : Settings :=
  { pixel_format := PixelFormat.SC_NONE, output_width := 0, output_height := 0 }

def settings_1x1 : Settings :=
  { pixel_format := PixelFormat.SC_BGRA, output_width := 1, output_height := 1 }

def settings_640x480 : Settings :=
  { pixel_format := PixelFormat.SC_BGRA, output_width := 640, output_height := 480 }

/-- The state after the first instance of a process was configured for 1x1
BGRA on `Platform.ok`. -/
def configured_1x1 : Option (Int × World × ScreenCaptureGL) :=
  ScreenCaptureGL.configure Platform.ok settings_1x1 World.initial
    (ScreenCaptureGL.new settings_none)

/-! ## Frames and what `update` does with them -/

/-- The bytes a frame delivers: the first `nbytes[0]` bytes at `plane[0]`. -/
def PixelBuffer.bytes (b : PixelBuffer) : List Byte :=
  (b.plane0.getD []).take b.nbytes0

/-- A valid BGRA frame for the instance: the user pointer is set, the format
is `SC_BGRA`, the byte count is non-zero, the primary plane is non-NULL (and
holds the announced number of bytes). -/
def PixelBuffer.valid (b : PixelBuffer) : Prop :=
  b.user = true ∧ b.pixel_format = PixelFormat.SC_BGRA ∧ b.nbytes0 ≠ 0 ∧
    b.plane0.isSome = true ∧ b.nbytes0 ≤ (b.plane0.getD []).length

instance (b : PixelBuffer) : Decidable b.valid := by
  unfold PixelBuffer.valid
  infer_instance

/-- What one `update()` does, seen from outside: the outside calls it appends
to the log, and the dirty flag it leaves. -/
def update_effect (P : Platform) (w : World) (gl : ScreenCaptureGL) : List Event × Bool :=
  ((ScreenCaptureGL.update P w gl).1.log.drop w.log.length,
    (ScreenCaptureGL.update P w gl).2.has_new_frame)

/-- Last-writer-wins for one run: the frames are delivered, and the following
`update()` uploads, under the lock, exactly the bytes of the frame `last` to
the instance texture and clears the dirty flag.  The block handed to
`glTexSubImage2D` consists of the bytes of `last`, and it has the
`output_width * output_height * 4` bytes that the call reads for the
dimensions it is given. -/
def last_writer_wins (P : Platform) (w : World) (gl : ScreenCaptureGL)
    (frames : List PixelBuffer) (last : PixelBuffer) : Prop :=
  (deliver P frames w gl).map (fun r => update_effect P r.1 r.2) =
    some ([Event.pthread_mutex_lock, Event.glBindTexture gl.tex0,
           Event.glTexSubImage2D gl.settings.output_width gl.settings.output_height
             (some last.bytes),
           Event.pthread_mutex_unlock], false) ∧
  (last.bytes.length : Int) = gl.settings.output_width * gl.settings.output_height * 4

instance (P : Platform) (w : World) (gl : ScreenCaptureGL) (frames : List PixelBuffer)
    (last : PixelBuffer) : Decidable (last_writer_wins P w gl frames last) := by
  unfold last_writer_wins
  infer_instance

/-- A full 1x1 frame. -/
def frame_full : PixelBuffer :=
  { pixel_format := PixelFormat.SC_BGRA, plane0 := some [1, 2, 3, 4], nbytes0 := 4,
    user := true }

/-- A frame of one byte. -/
def frame_short : PixelBuffer :=
  { pixel_format := PixelFormat.SC_BGRA, plane0 := some [9], nbytes0 := 1, user := true }

/-- Another full 1x1 frame. -/
def frame_full2 : PixelBuffer :=
  { pixel_format := PixelFormat.SC_BGRA, plane0 := some [5, 6, 7, 8], nbytes0 := 4,
    user := true }

/-- The world after that configuration. -/
def world_1x1 : World :=
  (configured_1x1.getD (0, World.initial, ScreenCaptureGL.new settings_none)).2.1

/-- The instance after that configuration. -/
def gl_1x1 : ScreenCaptureGL :=
  (configured_1x1.getD (0, World.initial, ScreenCaptureGL.new settings_none)).2.2

/-- A settings record with a pixel format other than BGRA. -/
def settings_other_640x480 : Settings :=
  { pixel_format := PixelFormat.other 1, output_width := 640, output_height := 480 }

/-! ## The staging-buffer size invariant -/

/-- The staging buffer, when allocated, has `output_width * output_height * 4`
bytes for the stored settings. -/
def staging_size_ok (gl : ScreenCaptureGL) : Prop :=
  ∀ buf, gl.pixels = some buf →
    (buf.length : Int) = gl.settings.output_width * gl.settings.output_height * 4

/-- An operation together with its status is admitted by the amended
invariant when it is not a `configure` that returns before the staging buffer
is reallocated (`-1`: unsupported format, `-2`: refused by the capture
source), and the byte size of the settings of a `configure` is a non-negative
`int`. -/
def Op.reallocates (op : Op) (status : Int) : Prop :=
  match op with
  | Op.configure cfg =>
    status ≠ -1 ∧ status ≠ -2 ∧ 0 ≤ cfg.output_width * cfg.output_height * 4 ∧
      cfg.output_width * cfg.output_height * 4 ≤ 2147483647
  | _ => True

/-- The states reached by sequences of operations all of which are admitted
by `Op.reallocates`. -/
inductive ReachableRealloc (P : Platform) : World → ScreenCaptureGL → Prop
  | fresh (w : World) (defaults : Settings) :
      ReachableRealloc P w (ScreenCaptureGL.new defaults)
  | step {w : World} {gl : ScreenCaptureGL} (op : Op) {r : Int} {w1 : World}
      {gl1 : ScreenCaptureGL} :
      ReachableRealloc P w gl → op.apply P w gl = some (r, w1, gl1) → op.reallocates r →
      ReachableRealloc P w1 gl1

/-- The instance after the configured 1x1 instance was asked for a format
that `configure` rejects. -/
def gl_1x1_rejected : ScreenCaptureGL :=
  { gl_1x1 with settings := settings_other_640x480 }

/-- A BGRA settings record whose byte size `32768 * 32768 * 4` is `2^32`. -/
def settings_32768 : Settings :=
  { pixel_format := PixelFormat.SC_BGRA, output_width := 32768, output_height := 32768 }

/-! ## Operations on an instance that is not set up -/

/-- The behaviour of `draw`, `update` and `flip` as no-ops: `draw` makes no
outside call and changes nothing; `update` only locks and unlocks the mutex
(no texture upload) and changes neither the instance nor the statics; `flip`
returns a negative status, makes no outside call and changes nothing. -/
def unconfigured_noop (P : Platform) (w : World) (gl : ScreenCaptureGL)
    (x y wd h : GLfloat) (horizontal vertical : Bool) : Prop :=
  ScreenCaptureGL.draw P x y wd h w gl = (w, gl) ∧
    (update_effect P w gl).1 = [Event.pthread_mutex_lock, Event.pthread_mutex_unlock] ∧
    (ScreenCaptureGL.update P w gl).2 = gl ∧
    (ScreenCaptureGL.update P w gl).1.st = w.st ∧
    (ScreenCaptureGL.flip horizontal vertical w).1 < 0 ∧
    (ScreenCaptureGL.flip horizontal vertical w).2 = w

/-- As `Platform.ok`, but no shader compiles (status 0, an info log length of
64, of which the driver stores no byte). -/
def Platform.no_shader : Platform :=
  { Platform.ok with compile_status := fun _ _ => 0, shader_info_log_length := fun _ _ => 64 }

/-- As `Platform.ok`, but a release build (`NDEBUG`) whose capture source
refuses every configuration. -/
def Platform.release_refusing : Platform :=
  { Platform.ok with ndebug := true, cap_configure := fun _ _ => -1 }

/-- The first `configure` of a process on `Platform.no_shader`. -/
def configured_no_shader : Option (Int × World × ScreenCaptureGL) :=
  ScreenCaptureGL.configure Platform.no_shader settings_1x1 World.initial
    (ScreenCaptureGL.new settings_none)

def world_no_shader : World :=
  (configured_no_shader.getD (0, World.initial, ScreenCaptureGL.new settings_none)).2.1

def gl_no_shader : ScreenCaptureGL :=
  (configured_no_shader.getD (0, World.initial, ScreenCaptureGL.new settings_none)).2.2

/-- The first `configure` of a process on `Platform.release_refusing`. -/
def configured_refused : Option (Int × World × ScreenCaptureGL) :=
  ScreenCaptureGL.configure Platform.release_refusing settings_1x1 World.initial
    (ScreenCaptureGL.new settings_none)

def world_refused : World :=
  (configured_refused.getD (0, World.initial, ScreenCaptureGL.new settings_none)).2.1

def gl_refused : ScreenCaptureGL :=
  (configured_refused.getD (0, World.initial, ScreenCaptureGL.new settings_none)).2.2

/-- A frame without bytes. -/
def frame_empty : PixelBuffer :=
  { pixel_format := PixelFormat.SC_BGRA, plane0 := some [1, 2, 3, 4], nbytes0 := 0,
    user := true }

/-- A frame whose primary plane is NULL. -/
def frame_null : PixelBuffer :=
  { pixel_format := PixelFormat.SC_BGRA, plane0 := none, nbytes0 := 4, user := true }

/-! ## What a log leaves current on the graphics side -/

/-- The program made current by the last `glUseProgram` of a log. -/
def current_program (log : List Event) : Option Nat :=
  log.reverse.findSome? (fun e =>
    match e with
    | Event.glUseProgram p => some p
    | _ => none)

/-- The location, count and values of the last `glUniform1fv` of a log. -/
def current_texcoords (log : List Event) : Option (Int × Nat × List GLfloat) :=
  log.reverse.findSome? (fun e =>
    match e with
    | Event.glUniform1fv loc count v => some (loc, count, v)
    | _ => none)

/-- The state `flip` acts on: the statics, the current program and the
coordinates last uploaded. -/
def flip_state (w : World) : Statics × Option Nat × Option (Int × Nat × List GLfloat) :=
  (w.st, current_program w.log, current_texcoords w.log)

/-- The `u` coordinate the vertex shader reads for vertex `i`:
`u_texcoords[gl_VertexID * 2]`. -/
def texcoord_u (tc : List GLfloat) (i : Nat) : GLfloat := tc.getD (i * 2) 0

/-- The `v` coordinate the vertex shader reads for vertex `i`:
`u_texcoords[gl_VertexID * 2 + 1]`. -/
def texcoord_v (tc : List GLfloat) (i : Nat) : GLfloat := tc.getD (i * 2 + 1) 0

/-- The horizontal flip of a coordinate array: `u` becomes `1 - u`. -/
def mirror_u : List GLfloat → List GLfloat
  | u :: v :: rest => (1 - u) :: v :: mirror_u rest
  | l => l

/-- The vertical flip of a coordinate array: `v` becomes `1 - v`. -/
def mirror_v : List GLfloat → List GLfloat
  | u :: v :: rest => u :: (1 - v) :: mirror_v rest
  | l => l

/-! ## The shared resources -/

/-- The outside calls that create or build a shared resource: shader and
program creation, compilation, attachment, linking, and the generation of the
vertex array. -/
def Event.builds_shared : Event → Bool
  | Event.glCreateShader _ => true
  | Event.glShaderSource _ _ => true
  | Event.glCompileShader _ => true
  | Event.glCreateProgram => true
  | Event.glAttachShader _ _ => true
  | Event.glLinkProgram _ => true
  | Event.glGenVertexArrays => true
  | _ => false

/-- The matrix last uploaded to the uniform location `loc`. -/
def current_matrix (log : List Event) (loc : Int) : Option (List GLfloat) :=
  log.reverse.findSome? (fun e =>
    match e with
    | Event.glUniformMatrix4fv l m => if l = loc then some m else none
    | _ => none)

/-- The integer last uploaded to the uniform location `loc`. -/
def current_sampler (log : List Event) (loc : Int) : Option Int :=
  log.reverse.findSome? (fun e =>
    match e with
    | Event.glUniform1i l v => if l = loc then some v else none
    | _ => none)

/-- The texture calls of a successful `setupTextures` (lines 468-474). -/
def texture_calls (P : Platform) (w : World) (gl : ScreenCaptureGL) : List Event :=
  [Event.glGenTextures, Event.glBindTexture (P.glGenTextures w.log),
   Event.glTexImage2D gl.settings.output_width gl.settings.output_height,
   Event.glTexParameteri GLParam.GL_TEXTURE_WRAP_S,
   Event.glTexParameteri GLParam.GL_TEXTURE_WRAP_T,
   Event.glTexParameteri GLParam.GL_TEXTURE_MIN_FILTER,
   Event.glTexParameteri GLParam.GL_TEXTURE_MAG_FILTER]

/-- A first instance, with 1x1 BGRA settings stored, as `configure` hands it
to `setupGraphics`. -/
def first_instance : ScreenCaptureGL :=
  { ScreenCaptureGL.new settings_none with
      settings := settings_1x1, pixels := some [0, 0, 0, 0] }

/-- A second instance, with 640x480 BGRA settings stored. -/
def second_instance : ScreenCaptureGL :=
  { ScreenCaptureGL.new settings_none with
      settings := settings_640x480, pixels := some (List.replicate 1228800 0) }

/-- The first shared bootstrap of a process on `Platform.ok`. -/
def first_bootstrap : Option (Int × World × ScreenCaptureGL) :=
  ScreenCaptureGL.setupGraphics Platform.ok World.initial first_instance

def world_bootstrapped : World :=
  (first_bootstrap.getD (0, World.initial, first_instance)).2.1

def gl_bootstrapped : ScreenCaptureGL :=
  (first_bootstrap.getD (0, World.initial, first_instance)).2.2

/-- A BGRA settings record of width and height -1; `configure_nbytes` is 4
for it, so `configure` allocates the staging buffer and reaches
`setupGraphics`. -/
def settings_negative : Settings :=
  { pixel_format := PixelFormat.SC_BGRA, output_width := -1, output_height := -1 }

/-- A second instance, with the -1x-1 BGRA settings stored, as `configure`
hands it to `setupGraphics`. -/
def instance_negative : ScreenCaptureGL :=
  { ScreenCaptureGL.new settings_none with
      settings := settings_negative, pixels := some [0, 0, 0, 0] }

/-- As `Platform.ok`, but the first `glGenVertexArrays` of the process stores
no name (the handle stays 0); later ones store a non-zero name. -/
def Platform.late_vao : Platform :=
  { Platform.ok with
      glGenVertexArrays := fun log =>
        if Event.glGenVertexArrays ∈ log then log.length + 1 else 0 }

/-- The first shared bootstrap of a process on `Platform.late_vao`. -/
def late_bootstrap : Option (Int × World × ScreenCaptureGL) :=
  ScreenCaptureGL.setupGraphics Platform.late_vao World.initial first_instance

def world_late : World :=
  (late_bootstrap.getD (0, World.initial, first_instance)).2.1

def gl_late : ScreenCaptureGL :=
  (late_bootstrap.getD (0, World.initial, first_instance)).2.2

/-! ## Platforms on which single steps fail -/

/-- As `Platform.ok`, but the mutex cannot be created. -/
def Platform.no_mutex : Platform :=
  { Platform.ok with pthread_mutex_init := fun _ => 1 }

/-- As `Platform.ok`, but the capture source fails to initialise. -/
def Platform.no_capture : Platform :=
  { Platform.ok with cap_init := fun _ => -1 }

/-- As `Platform.ok`, but the fragment shader does not compile (status 0, an
info log length of 64, of which the driver stores no byte) while the vertex
shader does. -/
def Platform.no_fragment : Platform :=
  { Platform.ok with
      compile_status := fun log _ =>
        if Event.glCreateShader ShaderType.GL_FRAGMENT_SHADER ∈ log then 0 else 1,
      shader_info_log_length := fun _ _ => 64 }

/-- As `Platform.ok`, but the program does not link (status 0, a 64-byte info
log of 63 characters). -/
def Platform.no_link : Platform :=
  { Platform.ok with
      link_status := fun _ _ => 0,
      program_info_log_length := fun _ _ => 64,
      program_info_log_nchars := fun _ _ => 63 }

/-- A BGRA settings record of width zero. -/
def settings_0x480 : Settings :=
  { pixel_format := PixelFormat.SC_BGRA, output_width := 0, output_height := 480 }

/-- A fresh instance in which the settings of width zero are stored. -/
def instance_0x480 : ScreenCaptureGL :=
  { ScreenCaptureGL.new settings_none with settings := settings_0x480 }

/-! ## The allocation of the instance texture -/

/-- Texture bookkeeping over one outside call, for the texture `tex`: the
first component is the texture bound by the last `glBindTexture`, the second
the dimensions of the last `glTexImage2D` issued while `tex` was bound
(`none` before any, and after `glDeleteTextures` of `tex`). -/
def track_texture (tex : Nat) (s : Option Nat × Option (Int × Int)) (e : Event) :
    Option Nat × Option (Int × Int) :=
  match e with
  | Event.glBindTexture t => (some t, s.2)
  | Event.glTexImage2D width height =>
    if s.1 = some tex then (s.1, some (width, height)) else s
  | Event.glDeleteTextures t => if t = tex then (s.1, none) else s
  | _ => s

/-- The dimensions with which the texture `tex` was allocated, according to
a log. -/
def allocated_dims (log : List Event) (tex : Nat) : Option (Int × Int) :=
  (log.foldl (track_texture tex) (none, none)).2

def settings_2x2 : Settings :=
  { pixel_format := PixelFormat.SC_BGRA, output_width := 2, output_height := 2 }

/-- A second, successful `configure` of the configured 1x1 instance, for 2x2. -/
def reconfigured_2x2 : Option (Int × World × ScreenCaptureGL) :=
  ScreenCaptureGL.configure Platform.ok settings_2x2 world_1x1 gl_1x1

def world_2x2 : World :=
  (reconfigured_2x2.getD (0, World.initial, ScreenCaptureGL.new settings_none)).2.1

def gl_2x2 : ScreenCaptureGL :=
  (reconfigured_2x2.getD (0, World.initial, ScreenCaptureGL.new settings_none)).2.2

/-! ## The placement matrix -/

/-- The column-major scale-translate matrix: scale `(w, h)` on the diagonal,
translation `(x, y)` in the last column. -/
def placement_matrix (x y w h : GLfloat) : List GLfloat :=
  [w, 0, 0, 0,
   0, h, 0, 0,
   0, 0, 1, 0,
   x, y, 0, 1]

/-- The states of an instance on which `configure()` has succeeded at some
point: the state a successful `configure()` leaves, and every state reached
from there by further operations (a later `configure()` may fail). -/
inductive Configured (P : Platform) : World → ScreenCaptureGL → Prop
  | configured {w : World} {gl : ScreenCaptureGL} (cfg : Settings) {w1 : World}
      {gl1 : ScreenCaptureGL} :
      ScreenCaptureGL.configure P cfg w gl = some (0, w1, gl1) → Configured P w1 gl1
  | step {w : World} {gl : ScreenCaptureGL} (op : Op) {r : Int} {w1 : World}
      {gl1 : ScreenCaptureGL} :
      Configured P w gl → op.apply P w gl = some (r, w1, gl1) → Configured P w1 gl1
  | projection {w : World} {gl : ScreenCaptureGL} (m : Option (List GLfloat)) :
      Configured P w gl →
      Configured P (ScreenCaptureGL.setProjectionMatrix P m w gl).2.1
        (ScreenCaptureGL.setProjectionMatrix P m w gl).2.2
  | start {w : World} {gl : ScreenCaptureGL} :
      Configured P w gl → Configured P (ScreenCaptureGL.start P w).2 gl
  | stop {w : World} {gl : ScreenCaptureGL} :
      Configured P w gl → Configured P (ScreenCaptureGL.stop P w).2 gl

/-- The world after `draw(1, 2, 3, 4)` on the configured 1x1 instance. -/
def world_drawn : World :=
  (ScreenCaptureGL.draw Platform.ok 1 2 3 4 world_1x1 gl_1x1).1

/-- The configured 1x1 instance after `draw(1, 2, 3, 4)`. -/
def gl_drawn : ScreenCaptureGL :=
  (ScreenCaptureGL.draw Platform.ok 1 2 3 4 world_1x1 gl_1x1).2

/-! # Theorems -/

/-! ## Basic facts about the log -/

@[simp] theorem emit_log (w : World) (e : Event) : (w.emit e).log = w.log ++ [e] := rfl

@[simp] theorem emit_st (w : World) (e : Event) : (w.emit e).st = w.st := rfl

@[simp] theorem lock_log (P : Platform) (w : World) :
    (sc_gl_lock_mutex P w).2.log = w.log ++ [Event.pthread_mutex_lock] := by
  unfold sc_gl_lock_mutex; split <;> rfl

@[simp] theorem lock_st (P : Platform) (w : World) : (sc_gl_lock_mutex P w).2.st = w.st := by
  unfold sc_gl_lock_mutex; split <;> rfl

@[simp] theorem unlock_log (P : Platform) (w : World) :
    (sc_gl_unlock_mutex P w).2.log = w.log ++ [Event.pthread_mutex_unlock] := by
  unfold sc_gl_unlock_mutex; split <;> rfl

@[simp] theorem unlock_st (P : Platform) (w : World) :
    (sc_gl_unlock_mutex P w).2.st = w.st := by
  unfold sc_gl_unlock_mutex; split <;> rfl

/-! ## C1: the frame hand-off -/

/-- One valid frame that fits the staging buffer overwrites its first
`nbytes[0]` bytes and sets the dirty flag. -/
theorem callback_valid (P : Platform) (b : PixelBuffer) (w : World) (gl : ScreenCaptureGL)
    (buf : List Byte) (hpx : gl.pixels = some buf) (hv : b.valid)
    (hfit : b.nbytes0 ≤ buf.length) :
    ∃ w1, sc_gl_frame_callback P b w gl =
      some (w1, { gl with pixels := some (b.bytes ++ buf.drop b.nbytes0),
                          has_new_frame := true }) := by
  obtain ⟨hu, hf, hn, hs, hl⟩ := hv
  obtain ⟨src, hsrc⟩ := Option.isSome_iff_exists.mp hs
  simp only [hsrc, Option.getD_some] at hl
  refine ⟨(sc_gl_unlock_mutex P (sc_gl_lock_mutex P w).2).2, ?_⟩
  simp [sc_gl_frame_callback, hu, hf, hn, hsrc, hpx, memcpy, hfit, hl, PixelBuffer.bytes]

/-- A non-empty run of valid frames that fit the staging buffer leaves a
buffer of the same size that starts with the bytes of the last frame. -/
theorem deliver_valid (P : Platform) :
    ∀ (frames : List PixelBuffer) (w : World) (gl : ScreenCaptureGL) (buf : List Byte),
      gl.pixels = some buf → frames ≠ [] →
      (∀ b ∈ frames, b.valid ∧ b.nbytes0 ≤ buf.length) →
      ∃ w1 px, deliver P frames w gl =
          some (w1, { gl with pixels := some px, has_new_frame := true }) ∧
        px.length = buf.length ∧
        ∀ last, frames.getLast? = some last → px.take last.nbytes0 = last.bytes := by
  intro frames
  induction frames with
  | nil => intro w gl buf _ hne; exact absurd rfl hne
  | cons b bs ih =>
    intro w gl buf hpx _ hall
    have hb := hall b (List.mem_cons_self b bs)
    obtain ⟨w1, hcb⟩ := callback_valid P b w gl buf hpx hb.1 hb.2
    have hblen : b.bytes.length = b.nbytes0 := by
      obtain ⟨_, _, _, _, hl⟩ := hb.1
      simp [PixelBuffer.bytes, hl]
    have hlen : (b.bytes ++ buf.drop b.nbytes0).length = buf.length := by
      simp [hblen]; omega
    by_cases hbs : bs = []
    · subst hbs
      refine ⟨w1, b.bytes ++ buf.drop b.nbytes0, ?_, hlen, ?_⟩
      · simp [deliver, hcb]
      · intro last hlast
        simp at hlast
        subst hlast
        rw [← hblen]
        simp
    · have hall2 : ∀ c ∈ bs, c.valid ∧
          c.nbytes0 ≤ (b.bytes ++ buf.drop b.nbytes0).length := by
        intro c hc
        rw [hlen]
        exact hall c (List.mem_cons_of_mem b hc)
      obtain ⟨w2, px, hd, hpl, hlast⟩ :=
        ih w1 { gl with pixels := some (b.bytes ++ buf.drop b.nbytes0), has_new_frame := true }
          (b.bytes ++ buf.drop b.nbytes0) rfl hbs hall2
      refine ⟨w2, px, ?_, hpl.trans hlen, ?_⟩
      · simp [deliver, hcb, hd]
      · intro last hl
        apply hlast
        obtain ⟨c, cs, rfl⟩ := List.exists_cons_of_ne_nil hbs
        simpa [List.getLast?_cons_cons] using hl

/-- C2: for every instance state and every settings record whose pixel format
is not `SC_BGRA`, `configure()` returns a negative status (`-1`), and the
staging buffer, the texture handles `tex0`/`tex1` and the shared statics are
the same after the call as before it; no outside call (allocation, release,
OpenGL) is made at all. -/
theorem C2_configure_unsupported_format (P : Platform) (cfg : Settings) (w : World)
    (gl : ScreenCaptureGL) (hfmt : cfg.pixel_format ≠ PixelFormat.SC_BGRA) :
    ∃ r w1 gl1, ScreenCaptureGL.configure P cfg w gl = some (r, w1, gl1) ∧ r < 0 ∧
      gl1.pixels = gl.pixels ∧ gl1.tex0 = gl.tex0 ∧ gl1.tex1 = gl.tex1 ∧
      w1.st = w.st ∧ w1.log = w.log := by
  refine ⟨-1, w, { gl with settings := cfg }, ?_, by decide, rfl, rfl, rfl, rfl, rfl⟩
  simp [ScreenCaptureGL.configure, hfmt]

/-- C2 applied to the configured 1x1 instance and a non-BGRA record. -/
theorem C2_configure_unsupported_format_witness :
    settings_other_640x480.pixel_format ≠ PixelFormat.SC_BGRA ∧
      ∃ r w1 gl1, ScreenCaptureGL.configure Platform.ok settings_other_640x480 world_1x1
          gl_1x1 = some (r, w1, gl1) ∧ r < 0 ∧
        gl1.pixels = gl_1x1.pixels ∧ gl1.tex0 = gl_1x1.tex0 ∧ gl1.tex1 = gl_1x1.tex1 ∧
        w1.st = world_1x1.st ∧ w1.log = world_1x1.log :=
  ⟨by decide,
    C2_configure_unsupported_format Platform.ok settings_other_640x480 world_1x1 gl_1x1
      (by decide)⟩

/-! ## Which instance fields the graphics setup touches -/

theorem setupShaders_uniforms_inst (P : Platform) (w : World) (gl : ScreenCaptureGL)
    {r : Int} {w1 : World} {gl1 : ScreenCaptureGL}
    (h : setupShaders_uniforms P w gl = some (r, w1, gl1)) :
    r = 0 ∧ ∃ pm, gl1 = { gl with pm := pm } := by
  unfold setupShaders_uniforms at h
  simp only at h
  split at h
  · exact absurd h (by simp)
  · simp only [Option.some.injEq, Prod.mk.injEq] at h
    obtain ⟨h1, _, h3⟩ := h
    exact ⟨h1.symm, _, h3.symm⟩

theorem setupShaders_inst (P : Platform) (w : World) (gl : ScreenCaptureGL)
    {r : Int} {w1 : World} {gl1 : ScreenCaptureGL}
    (h : ScreenCaptureGL.setupShaders P w gl = some (r, w1, gl1)) :
    ∃ pm, gl1 = { gl with pm := pm } := by
  unfold ScreenCaptureGL.setupShaders at h
  simp only at h
  repeat' split at h
  all_goals
    first
      | exact Option.noConfusion h
      | exact (setupShaders_uniforms_inst P _ gl h).2
      | (simp only [Option.some.injEq, Prod.mk.injEq] at h
         exact ⟨gl.pm, h.2.2.symm⟩)

theorem setupTextures_inst (P : Platform) (w : World) (gl : ScreenCaptureGL) :
    ∃ t, (ScreenCaptureGL.setupTextures P w gl).2.2 = { gl with tex0 := t } := by
  unfold ScreenCaptureGL.setupTextures
  simp only
  split_ifs
  · exact ⟨gl.tex0, rfl⟩
  · exact ⟨gl.tex0, rfl⟩
  · exact ⟨gl.tex0, rfl⟩
  · exact ⟨_, rfl⟩
  · exact ⟨gl.tex0, rfl⟩

/-- The fields of an instance that only `configure`, `shutdown`, the frame
callback and `update` write. -/
theorem setupGraphics_inst (P : Platform) (w : World) (gl : ScreenCaptureGL)
    {r : Int} {w1 : World} {gl1 : ScreenCaptureGL}
    (h : ScreenCaptureGL.setupGraphics P w gl = some (r, w1, gl1)) :
    gl1.settings = gl.settings ∧ gl1.pixels = gl.pixels ∧
      gl1.has_new_frame = gl.has_new_frame ∧ gl1.tex1 = gl.tex1 := by
  unfold ScreenCaptureGL.setupGraphics at h
  simp only at h
  split at h
  · exact absurd h (by simp)
  · rename_i rs ws gls hs
    have hgls : ∃ pm, gls = { gl with pm := pm } := by
      split at hs
      · exact setupShaders_inst P w gl hs
      · simp only [Option.some.injEq, Prod.mk.injEq] at hs
        exact ⟨gl.pm, hs.2.2.symm⟩
    obtain ⟨pm, rfl⟩ := hgls
    obtain ⟨t, ht⟩ := setupTextures_inst P ws { gl with pm := pm }
    split_ifs at h <;> simp only [Option.some.injEq, Prod.mk.injEq] at h <;>
      obtain ⟨-, -, rfl⟩ := h <;> simp [ht]

/-! ## C3: the size of the staging buffer -/

/-- Without overflow the byte count of `configure` is the exact product. -/
theorem configure_nbytes_exact (cfg : Settings)
    (h0 : 0 ≤ cfg.output_width * cfg.output_height * 4)
    (h1 : cfg.output_width * cfg.output_height * 4 ≤ 2147483647) :
    (configure_nbytes cfg : Int) = cfg.output_width * cfg.output_height * 4 := by
  unfold configure_nbytes to_size_t wrap_int
  generalize cfg.output_width * cfg.output_height = z at h0 h1
  omega

/-- A `configure` that gets past the format check and the capture source
stores the settings and leaves a zero-filled buffer of `configure_nbytes`
bytes, whatever the graphics setup does afterwards. -/
theorem configure_realloc (P : Platform) (cfg : Settings) (w : World) (gl : ScreenCaptureGL)
    {r : Int} {w1 : World} {gl1 : ScreenCaptureGL}
    (h : ScreenCaptureGL.configure P cfg w gl = some (r, w1, gl1))
    (hr1 : r ≠ -1) (hr2 : r ≠ -2) :
    gl1.settings = cfg ∧ gl1.pixels = some (List.replicate (configure_nbytes cfg) 0) := by
  have key : ∀ (W : World) (G : ScreenCaptureGL),
      G.settings = cfg → G.pixels = some (List.replicate (configure_nbytes cfg) 0) →
      (match ScreenCaptureGL.setupGraphics P W G with
        | none => none
        | some (r4, w4, gl4) => if r4 ≠ 0 then some (-4, w4, gl4) else some (0, w4, gl4)) =
        some (r, w1, gl1) →
      gl1.settings = cfg ∧ gl1.pixels = some (List.replicate (configure_nbytes cfg) 0) := by
    intro W G hG1 hG2 hm
    split at hm
    · exact absurd hm (by simp)
    · rename_i r4 w4 gl4 hs
      have hg := setupGraphics_inst P _ _ hs
      split_ifs at hm <;> simp only [Option.some.injEq, Prod.mk.injEq] at hm <;>
        obtain ⟨-, -, rfl⟩ := hm <;> exact ⟨hg.1.trans hG1, hg.2.1.trans hG2⟩
  unfold ScreenCaptureGL.configure at h
  simp only at h
  split_ifs at h with hf hc hb hp hp
  · simp only [Option.some.injEq, Prod.mk.injEq] at h
    exact absurd h.1.symm hr1
  · simp only [Option.some.injEq, Prod.mk.injEq] at h
    exact absurd h.1.symm hr2
  · exact key _ _ rfl rfl h
  · exact key _ _ rfl rfl h
  · exact absurd hb (by simpa using hf)
  · exact absurd hb (by simpa using hf)

/-- The frame callback keeps the settings and the length of the staging
buffer. -/
theorem callback_size (P : Platform) (b : PixelBuffer) (w : World) (gl : ScreenCaptureGL)
    {w1 : World} {gl1 : ScreenCaptureGL}
    (h : sc_gl_frame_callback P b w gl = some (w1, gl1)) :
    gl1.settings = gl.settings ∧
      (gl1.pixels = gl.pixels ∨
        ∃ buf px, gl.pixels = some buf ∧ gl1.pixels = some px ∧ px.length = buf.length) := by
  unfold sc_gl_frame_callback at h
  split_ifs at h
  · simp only [Option.some.injEq, Prod.mk.injEq] at h
    obtain ⟨-, rfl⟩ := h
    exact ⟨rfl, Or.inl rfl⟩
  · simp only [Option.some.injEq, Prod.mk.injEq] at h
    obtain ⟨-, rfl⟩ := h
    exact ⟨rfl, Or.inl rfl⟩
  · split at h
    · simp only [Option.some.injEq, Prod.mk.injEq] at h
      obtain ⟨-, rfl⟩ := h
      exact ⟨rfl, Or.inl rfl⟩
    · rename_i src hsrc
      simp only at h
      split at h
      · exact absurd h (by simp)
      · rename_i dst hdst
        split at h
        · exact absurd h (by simp)
        · rename_i px hpx
          simp only [Option.some.injEq, Prod.mk.injEq] at h
          obtain ⟨-, rfl⟩ := h
          refine ⟨rfl, Or.inr ⟨dst, px, hdst, rfl, ?_⟩⟩
          unfold memcpy at hpx
          split_ifs at hpx with hfit
          simp only [Option.some.injEq] at hpx
          subst hpx
          simp only [List.length_append, List.length_take, List.length_drop]
          omega
  · simp only [Option.some.injEq, Prod.mk.injEq] at h
    obtain ⟨-, rfl⟩ := h
    exact ⟨rfl, Or.inl rfl⟩

/-- Every admitted operation keeps the size invariant. -/
theorem step_staging_size_ok (P : Platform) (op : Op) (w : World) (gl : ScreenCaptureGL)
    {r : Int} {w1 : World} {gl1 : ScreenCaptureGL}
    (h : op.apply P w gl = some (r, w1, gl1)) (hop : op.reallocates r)
    (hinv : staging_size_ok gl) : staging_size_ok gl1 := by
  cases op with
  | init =>
    simp only [Op.apply, Option.some.injEq, Prod.mk.injEq] at h
    obtain ⟨-, -, rfl⟩ := h
    exact hinv
  | configure cfg =>
    obtain ⟨hr1, hr2, h0, h1⟩ := hop
    obtain ⟨hs, hp⟩ := configure_realloc P cfg w gl h hr1 hr2
    intro buf hbuf
    rw [hp] at hbuf
    simp only [Option.some.injEq] at hbuf
    subst hbuf
    rw [hs, List.length_replicate]
    exact configure_nbytes_exact cfg h0 h1
  | frame b =>
    simp only [Op.apply, Option.map_eq_some', Prod.mk.injEq] at h
    obtain ⟨⟨w2, gl2⟩, hcb, -, rfl, rfl⟩ := h
    obtain ⟨hs, hp⟩ := callback_size P b w gl hcb
    intro buf hbuf
    rw [hs]
    rcases hp with hp | ⟨old, px, hold, hpx, hlen⟩
    · exact hinv buf (hp ▸ hbuf)
    · rw [hpx] at hbuf
      simp only [Option.some.injEq] at hbuf
      subst hbuf
      rw [hlen]
      exact hinv old hold
  | update =>
    simp only [Op.apply, Option.some.injEq, Prod.mk.injEq] at h
    obtain ⟨-, -, rfl⟩ := h
    unfold ScreenCaptureGL.update
    simp only
    split_ifs <;> exact hinv
  | draw x y wd ht =>
    simp only [Op.apply, Option.some.injEq, Prod.mk.injEq] at h
    obtain ⟨-, -, rfl⟩ := h
    unfold ScreenCaptureGL.draw
    simp only
    split_ifs <;> exact hinv
  | flip hz vt =>
    simp only [Op.apply, Option.some.injEq, Prod.mk.injEq] at h
    obtain ⟨-, -, rfl⟩ := h
    exact hinv
  | shutdown =>
    simp only [Op.apply, Option.some.injEq] at h
    have hp : gl1.pixels = none := by
      have h2 := congrArg (fun x => x.2.2.pixels) h
      simpa [ScreenCaptureGL.shutdown] using h2.symm
    intro buf hbuf
    rw [hp] at hbuf
    exact absurd hbuf (by simp)

/-- C3, as stated, fails: a successful `configure` for 1x1 BGRA followed by a
`configure` that fails on an unsupported format leaves the 4-byte staging
buffer allocated while the stored settings say 640x480. -/
theorem C3_failed_configure_counterexample :
    Reachable Platform.ok world_1x1 gl_1x1_rejected ∧ ¬ staging_size_ok gl_1x1_rejected ∧
      gl_1x1_rejected.pixels = some [0, 0, 0, 0] ∧
      gl_1x1_rejected.settings.output_width * gl_1x1_rejected.settings.output_height * 4 =
        1228800 := by
  refine ⟨?_, ?_, by decide, by decide⟩
  · have h1 : (Op.configure settings_1x1).apply Platform.ok World.initial
        (ScreenCaptureGL.new settings_none) = some (0, world_1x1, gl_1x1) := rfl
    have h2 : (Op.configure settings_other_640x480).apply Platform.ok world_1x1 gl_1x1 =
        some (-1, world_1x1, gl_1x1_rejected) := rfl
    exact Reachable.step _ (Reachable.step _ (Reachable.fresh _ _) h1) h2
  · intro h
    have h4 := h [0, 0, 0, 0] (by decide)
    revert h4
    decide

/-- C3 (amended): in every state reached from a freshly constructed instance
by a sequence of init, configure, frame callbacks, update, draw, flip and
shutdown in which every `configure` gets as far as reallocating the staging
buffer (it returns neither `-1` nor `-2`) with settings whose byte size is a
non-negative `int`, the staging buffer, whenever allocated, has exactly
`settings.output_width * settings.output_height * 4` bytes for the stored
settings. -/
theorem C3_staging_size_invariant (P : Platform) (w : World) (gl : ScreenCaptureGL)
    (h : ReachableRealloc P w gl) : staging_size_ok gl := by
  induction h with
  | fresh w defaults =>
    intro buf hbuf
    exact absurd hbuf (by simp [ScreenCaptureGL.new])
  | step op _ happ hop ih => exact step_staging_size_ok P op _ _ happ hop ih

/-- C3 (amended) applied to the instance configured for 1x1 and then fed a
full frame. -/
theorem C3_staging_size_invariant_witness :
    ReachableRealloc Platform.ok world_1x1 gl_1x1 ∧ staging_size_ok gl_1x1 :=
  have hr : ReachableRealloc Platform.ok world_1x1 gl_1x1 :=
    ReachableRealloc.step (Op.configure settings_1x1)
      (ReachableRealloc.fresh World.initial settings_none)
      (rfl : (Op.configure settings_1x1).apply Platform.ok World.initial
        (ScreenCaptureGL.new settings_none) = some (0, world_1x1, gl_1x1))
      (by decide : (0 : Int) ≠ -1 ∧ (0 : Int) ≠ -2 ∧
        0 ≤ settings_1x1.output_width * settings_1x1.output_height * 4 ∧
        settings_1x1.output_width * settings_1x1.output_height * 4 ≤ 2147483647)
  ⟨hr, C3_staging_size_invariant Platform.ok world_1x1 gl_1x1 hr⟩

/-! ## C4: the staging buffer that `configure` allocates -/

/-- Within the range of `int`, a successful `configure` leaves a zero-filled
staging buffer of exactly `output_width * output_height * 4` bytes. -/
theorem configure_staging_in_range (P : Platform) (cfg : Settings) (w : World)
    (gl : ScreenCaptureGL) {w1 : World} {gl1 : ScreenCaptureGL}
    (h : ScreenCaptureGL.configure P cfg w gl = some (0, w1, gl1))
    (h0 : 0 ≤ cfg.output_width * cfg.output_height * 4)
    (h1 : cfg.output_width * cfg.output_height * 4 ≤ 2147483647) :
    gl1.pixels =
      some (List.replicate (cfg.output_width * cfg.output_height * 4).toNat 0) := by
  have hp := (configure_realloc P cfg w gl h (by decide) (by decide)).2
  have hn := configure_nbytes_exact cfg h0 h1
  rw [hp, ← hn, Int.toNat_ofNat]

/-- C4 at its failing input: for the BGRA record 32768x32768, accepted by the
capture source and with a successful graphics setup, `configure` returns 0
and leaves a staging buffer of 0 bytes, while `output_width * output_height *
4` is 4294967296: the product is formed in `int` and wraps around. -/
theorem C4_overflow_failing_input :
    (ScreenCaptureGL.configure Platform.ok settings_32768 World.initial
        (ScreenCaptureGL.new settings_none)).map (fun r => (r.1, r.2.2.pixels)) =
      some (0, some []) ∧
    settings_32768.output_width * settings_32768.output_height * 4 = 4294967296 ∧
    0 < settings_32768.output_width ∧ 0 < settings_32768.output_height := by
  decide

/-! ## C5: `draw`, `update` and `flip` before the set-up -/

/-- C5, as stated, fails in three ways.  (1) After a first instance was
configured, a second instance on which `configure` was never called can
`flip`: it returns 0 and uploads coordinates, because the guard of `flip`
reads the shared program.  (2) After a `configure` that failed in the
graphics setup (status -4) the staging buffer exists, a delivered frame sets
the dirty flag and `update` uploads.  (3) In a release build, after a
`configure` refused by the capture source (status -2), `draw(10, 20, 100,
50)` issues the draw call. -/
theorem C5_not_configured_counterexample :
    (configured_1x1 = some (0, world_1x1, gl_1x1) ∧
      ¬ unconfigured_noop Platform.ok world_1x1 (ScreenCaptureGL.new settings_none)
          10 20 100 50 false false ∧
      (ScreenCaptureGL.flip false false world_1x1).1 = 0 ∧
      (ScreenCaptureGL.flip false false world_1x1).2.log =
        world_1x1.log ++ [Event.glUseProgram world_1x1.st.prog,
          Event.glUniform1fv world_1x1.st.u_texcoords 8 tex_normal]) ∧
    (configured_no_shader = some (-4, world_no_shader, gl_no_shader) ∧
      (deliver Platform.no_shader [frame_full] world_no_shader gl_no_shader).map
          (fun r => (update_effect Platform.no_shader r.1 r.2).1) =
        some [Event.pthread_mutex_lock, Event.glBindTexture 0,
          Event.glTexSubImage2D 1 1 (some [1, 2, 3, 4]), Event.pthread_mutex_unlock]) ∧
    (configured_refused = some (-2, world_refused, gl_refused) ∧
      ¬ unconfigured_noop Platform.release_refusing world_refused gl_refused
          10 20 100 50 false false ∧
      (ScreenCaptureGL.draw Platform.release_refusing 10 20 100 50 world_refused
          gl_refused).1.log =
        world_refused.log ++ [Event.glActiveTexture, Event.glBindTexture 0,
          Event.glUseProgram 0, Event.glBindVertexArray 0,
          Event.glUniformMatrix4fv (-1) [100, 0, 0, 0, 0, 50, 0, 0, 0, 0, 0, 0, 10, 20, 0, 0],
          Event.glDrawArrays 0 6]) := by
  refine ⟨⟨rfl, ?_, by decide, rfl⟩, ⟨rfl, by decide⟩, ⟨rfl, ?_, rfl⟩⟩
  · intro h
    exact absurd h.2.2.2.2.1 (by decide)
  · intro h
    have h2 := congrArg (fun r => r.1.log.length) h.1
    revert h2
    decide

/-- C5 (amended): in every state in which the shared program handle is 0 (no
instance has completed the shader setup) and the dirty flag of the instance
is false, in a debug build or with a stored pixel format other than
`SC_BGRA`, for all x, y, w, h and all flip flags: `draw` issues no outside
call, `update` issues no texture upload (it only locks and unlocks the
mutex), `flip` uploads no coordinates and returns a negative status, and the
instance and the statics are left unchanged. -/
theorem C5_noop_without_program (P : Platform) (w : World) (gl : ScreenCaptureGL)
    (x y wd h : GLfloat) (horizontal vertical : Bool)
    (hprog : w.st.prog = 0)
    (hbuild : P.ndebug = false ∨ gl.settings.pixel_format ≠ PixelFormat.SC_BGRA)
    (hclean : gl.has_new_frame = false) :
    unconfigured_noop P w gl x y wd h horizontal vertical := by
  refine ⟨?_, ?_, ?_, ?_, ?_, ?_⟩
  · unfold ScreenCaptureGL.draw
    rcases hbuild with hb | hb
    · simp [hb, hprog]
    · simp [hb]
  · simp [update_effect, ScreenCaptureGL.update, hclean]
  · simp [ScreenCaptureGL.update, hclean]
  · simp [ScreenCaptureGL.update, hclean]
  · simp [ScreenCaptureGL.flip, hprog]
  · simp [ScreenCaptureGL.flip, hprog]

/-- C5 (amended) applied to `draw(10, 20, 100, 50)`, `update()` and
`flip(false, true)` on a fresh instance at process start. -/
theorem C5_noop_without_program_witness :
    World.initial.st.prog = 0 ∧
      (Platform.ok.ndebug = false ∨
        (ScreenCaptureGL.new settings_none).settings.pixel_format ≠ PixelFormat.SC_BGRA) ∧
      (ScreenCaptureGL.new settings_none).has_new_frame = false ∧
      unconfigured_noop Platform.ok World.initial (ScreenCaptureGL.new settings_none)
        10 20 100 50 false true :=
  ⟨rfl, Or.inl rfl, rfl,
    C5_noop_without_program Platform.ok World.initial (ScreenCaptureGL.new settings_none)
      10 20 100 50 false true rfl (Or.inl rfl) rfl⟩

/-! ## C6: dropped frames -/

/-- A frame without bytes or without primary plane is dropped: the callback
makes no outside call and changes nothing. -/
theorem callback_dropped (P : Platform) (b : PixelBuffer) (w : World) (gl : ScreenCaptureGL)
    (hb : b.nbytes0 = 0 ∨ b.plane0 = none) :
    sc_gl_frame_callback P b w gl = some (w, gl) := by
  unfold sc_gl_frame_callback
  rcases hb with hb | hb
  · simp [hb]
  · simp [hb]

theorem deliver_dropped (P : Platform) (frames : List PixelBuffer) (w : World)
    (gl : ScreenCaptureGL) (hb : ∀ b ∈ frames, b.nbytes0 = 0 ∨ b.plane0 = none) :
    deliver P frames w gl = some (w, gl) := by
  induction frames with
  | nil => rfl
  | cons b bs ih =>
    have h1 := callback_dropped P b w gl (hb b (List.mem_cons_self b bs))
    have h2 := ih (fun c hc => hb c (List.mem_cons_of_mem b hc))
    simp [deliver, h1, h2]

/-- C6: for every instance state whose dirty flag is false and every
(possibly empty) sequence of frames each having a zero byte count or a NULL
primary plane, delivering the frames to the frame callback changes nothing
(staging buffer, dirty flag, the whole instance and world), and the
following `update()` only locks and unlocks the mutex: it issues no GPU call
and leaves the instance and the statics unchanged. -/
theorem C6_dropped_frames_then_update (P : Platform) (w : World) (gl : ScreenCaptureGL)
    (frames : List PixelBuffer) (hclean : gl.has_new_frame = false)
    (hb : ∀ b ∈ frames, b.nbytes0 = 0 ∨ b.plane0 = none) :
    deliver P frames w gl = some (w, gl) ∧
      (ScreenCaptureGL.update P w gl).1.log =
        w.log ++ [Event.pthread_mutex_lock, Event.pthread_mutex_unlock] ∧
      (ScreenCaptureGL.update P w gl).1.st = w.st ∧
      (ScreenCaptureGL.update P w gl).2 = gl := by
  refine ⟨deliver_dropped P frames w gl hb, ?_, ?_, ?_⟩ <;>
    simp [ScreenCaptureGL.update, hclean]

/-- C6 applied to the configured 1x1 instance, a frame with byte count 0 and
a frame with a NULL plane. -/
theorem C6_dropped_frames_then_update_witness :
    gl_1x1.has_new_frame = false ∧
      (∀ b ∈ [frame_empty, frame_null], b.nbytes0 = 0 ∨ b.plane0 = none) ∧
      deliver Platform.ok [frame_empty, frame_null] world_1x1 gl_1x1 =
        some (world_1x1, gl_1x1) ∧
      (ScreenCaptureGL.update Platform.ok world_1x1 gl_1x1).1.log =
        world_1x1.log ++ [Event.pthread_mutex_lock, Event.pthread_mutex_unlock] ∧
      (ScreenCaptureGL.update Platform.ok world_1x1 gl_1x1).1.st = world_1x1.st ∧
      (ScreenCaptureGL.update Platform.ok world_1x1 gl_1x1).2 = gl_1x1 :=
  ⟨by decide, by decide,
    C6_dropped_frames_then_update Platform.ok world_1x1 gl_1x1 [frame_empty, frame_null]
      (by decide) (by decide)⟩

/-! ## C7 and C8: `flip` -/

/-- With the program created and the uniform resolved, `flip` returns 0 and
appends `glUseProgram(prog)` and one `glUniform1fv` of the selected array. -/
theorem flip_ok (horizontal vertical : Bool) (w : World) (hprog : w.st.prog ≠ 0)
    (hloc : w.st.u_texcoords ≠ -1) :
    ∃ tc, flip_texcoords horizontal vertical = some tc ∧
      ScreenCaptureGL.flip horizontal vertical w =
        (0, { st := w.st,
              log := w.log ++ [Event.glUseProgram w.st.prog,
                Event.glUniform1fv w.st.u_texcoords 8 tc] }) := by
  cases horizontal <;> cases vertical <;>
    simp [ScreenCaptureGL.flip, flip_texcoords, hprog, hloc, World.emit]

/-- C7: for every pair of booleans, when the shared program exists and the
texture-coordinate uniform is resolved, `flip(horizontal, vertical)` returns
0 and uploads exactly one of the four fixed 8-float arrays, the one selected
by the two flags alone; a second call with the same arguments returns the
same status and uploads the same eight values, and the statics, the current
program and the uploaded coordinates after two calls equal those after
one. -/
theorem C7_flip_idempotent (horizontal vertical : Bool) (w : World)
    (hprog : w.st.prog ≠ 0) (hloc : w.st.u_texcoords ≠ -1) :
    ∃ tc, tc ∈ [tex_normal, tex_vert, tex_hori, tex_verthori] ∧ tc.length = 8 ∧
      flip_texcoords horizontal vertical = some tc ∧
      ScreenCaptureGL.flip horizontal vertical w =
        (0, { st := w.st,
              log := w.log ++ [Event.glUseProgram w.st.prog,
                Event.glUniform1fv w.st.u_texcoords 8 tc] }) ∧
      ScreenCaptureGL.flip horizontal vertical (ScreenCaptureGL.flip horizontal vertical w).2 =
        (0, { st := w.st,
              log := (w.log ++ [Event.glUseProgram w.st.prog,
                Event.glUniform1fv w.st.u_texcoords 8 tc]) ++
                [Event.glUseProgram w.st.prog, Event.glUniform1fv w.st.u_texcoords 8 tc] }) ∧
      flip_state (ScreenCaptureGL.flip horizontal vertical
          (ScreenCaptureGL.flip horizontal vertical w).2).2 =
        flip_state (ScreenCaptureGL.flip horizontal vertical w).2 := by
  obtain ⟨tc, htc, hflip⟩ := flip_ok horizontal vertical w hprog hloc
  have hmem : tc ∈ [tex_normal, tex_vert, tex_hori, tex_verthori] ∧ tc.length = 8 := by
    cases horizontal <;> cases vertical <;>
      simp [flip_texcoords] at htc <;> subst htc <;>
      simp [tex_normal, tex_vert, tex_hori, tex_verthori]
  obtain ⟨tc2, htc2, hflip2⟩ := flip_ok horizontal vertical
    { st := w.st, log := w.log ++ [Event.glUseProgram w.st.prog,
        Event.glUniform1fv w.st.u_texcoords 8 tc] } hprog hloc
  have heq : tc2 = tc := Option.some.inj (htc2.symm.trans htc)
  subst heq
  refine ⟨tc2, hmem.1, hmem.2, htc, hflip, ?_, ?_⟩
  · rw [hflip]
    exact hflip2
  · rw [hflip]
    simp only
    rw [hflip2]
    simp [flip_state, current_program, current_texcoords]

/-- C7 applied to `flip(true, false)` on the configured 1x1 instance. -/
theorem C7_flip_idempotent_witness :
    world_1x1.st.prog ≠ 0 ∧ world_1x1.st.u_texcoords ≠ -1 ∧
    ∃ tc, tc ∈ [tex_normal, tex_vert, tex_hori, tex_verthori] ∧ tc.length = 8 ∧
      flip_texcoords true false = some tc ∧
      ScreenCaptureGL.flip true false world_1x1 =
        (0, { st := world_1x1.st,
              log := world_1x1.log ++ [Event.glUseProgram world_1x1.st.prog,
                Event.glUniform1fv world_1x1.st.u_texcoords 8 tc] }) ∧
      ScreenCaptureGL.flip true false (ScreenCaptureGL.flip true false world_1x1).2 =
        (0, { st := world_1x1.st,
              log := (world_1x1.log ++ [Event.glUseProgram world_1x1.st.prog,
                Event.glUniform1fv world_1x1.st.u_texcoords 8 tc]) ++
                [Event.glUseProgram world_1x1.st.prog,
                  Event.glUniform1fv world_1x1.st.u_texcoords 8 tc] }) ∧
      flip_state (ScreenCaptureGL.flip true false
          (ScreenCaptureGL.flip true false world_1x1).2).2 =
        flip_state (ScreenCaptureGL.flip true false world_1x1).2 :=
  ⟨by decide, by decide, C7_flip_idempotent true false world_1x1 (by decide) (by decide)⟩

/-- The selected array is the identity array, mirrored in `u` when
`horizontal` and in `v` when `vertical`. -/
theorem flip_texcoords_mirror (horizontal vertical : Bool) :
    flip_texcoords horizontal vertical =
      some ((if horizontal then mirror_u else id)
        ((if vertical then mirror_v else id) tex_normal)) := by
  cases horizontal <;> cases vertical <;>
    norm_num [flip_texcoords, mirror_u, mirror_v, tex_normal, tex_vert, tex_hori, tex_verthori]

/-- C8: whenever `flip(horizontal, vertical)` uploads (program created,
uniform resolved), the pair `(u, v)` it uploads for each vertex `i` in 0..3
is the pair of the array of `flip(false, false)` with `u` replaced by `1 - u`
exactly when `horizontal` and `v` replaced by `1 - v` exactly when
`vertical`; the arrays of different flag pairs are different; and the array
is the composition of the horizontal and the vertical mirror, in either
order. -/
theorem C8_flip_orientation (horizontal vertical : Bool) (w : World)
    (hprog : w.st.prog ≠ 0) (hloc : w.st.u_texcoords ≠ -1) :
    ∃ tc n,
      (ScreenCaptureGL.flip horizontal vertical w).2.log =
        w.log ++ [Event.glUseProgram w.st.prog, Event.glUniform1fv w.st.u_texcoords 8 tc] ∧
      (ScreenCaptureGL.flip false false w).2.log =
        w.log ++ [Event.glUseProgram w.st.prog, Event.glUniform1fv w.st.u_texcoords 8 n] ∧
      (∀ i, i < 4 →
        texcoord_u tc i = (if horizontal then 1 - texcoord_u n i else texcoord_u n i) ∧
        texcoord_v tc i = (if vertical then 1 - texcoord_v n i else texcoord_v n i)) ∧
      (∀ h2 v2, flip_texcoords h2 v2 = some tc → h2 = horizontal ∧ v2 = vertical) ∧
      tc = (if horizontal then mirror_u else id) ((if vertical then mirror_v else id) n) ∧
      tc = (if vertical then mirror_v else id) ((if horizontal then mirror_u else id) n) := by
  obtain ⟨tc, htc, hflip⟩ := flip_ok horizontal vertical w hprog hloc
  obtain ⟨n, hn, hflipn⟩ := flip_ok false false w hprog hloc
  have hn2 : n = tex_normal := by
    simp [flip_texcoords] at hn
    exact hn.symm
  subst hn2
  refine ⟨tc, tex_normal, by rw [hflip], by rw [hflipn], ?_, ?_, ?_, ?_⟩
  · intro i hi
    interval_cases i <;> cases horizontal <;> cases vertical <;>
      simp [flip_texcoords] at htc <;> subst htc <;>
      norm_num [texcoord_u, texcoord_v, tex_normal, tex_vert, tex_hori, tex_verthori]
  · intro h2 v2 h
    cases horizontal <;> cases vertical <;>
      simp [flip_texcoords] at htc <;> subst htc <;>
      cases h2 <;> cases v2 <;>
      simp [flip_texcoords, tex_normal, tex_vert, tex_hori, tex_verthori] at h ⊢
  · have hm := flip_texcoords_mirror horizontal vertical
    rw [htc] at hm
    exact Option.some.inj hm
  · cases horizontal <;> cases vertical <;>
      simp [flip_texcoords] at htc <;> subst htc <;>
      norm_num [mirror_u, mirror_v, tex_normal, tex_vert, tex_hori, tex_verthori]

/-- C8 applied to `flip(true, true)` on the configured 1x1 instance. -/
theorem C8_flip_orientation_witness :
    world_1x1.st.prog ≠ 0 ∧ world_1x1.st.u_texcoords ≠ -1 ∧
    ∃ tc n,
      (ScreenCaptureGL.flip true true world_1x1).2.log =
        world_1x1.log ++ [Event.glUseProgram world_1x1.st.prog,
          Event.glUniform1fv world_1x1.st.u_texcoords 8 tc] ∧
      (ScreenCaptureGL.flip false false world_1x1).2.log =
        world_1x1.log ++ [Event.glUseProgram world_1x1.st.prog,
          Event.glUniform1fv world_1x1.st.u_texcoords 8 n] ∧
      (∀ i, i < 4 →
        texcoord_u tc i = (if true = true then 1 - texcoord_u n i else texcoord_u n i) ∧
        texcoord_v tc i = (if true = true then 1 - texcoord_v n i else texcoord_v n i)) ∧
      (∀ h2 v2, flip_texcoords h2 v2 = some tc → h2 = true ∧ v2 = true) ∧
      tc = (if true = true then mirror_u else id) ((if true = true then mirror_v else id) n) ∧
      tc = (if true = true then mirror_v else id) ((if true = true then mirror_u else id) n) :=
  ⟨by decide, by decide, C8_flip_orientation true true world_1x1 (by decide) (by decide)⟩

/-! ## C9: the shared bootstrap -/

theorem flip_eq_zero (horizontal vertical : Bool) (w : World)
    (h : (ScreenCaptureGL.flip horizontal vertical w).1 = 0) :
    w.st.prog ≠ 0 ∧ w.st.u_texcoords ≠ -1 := by
  unfold ScreenCaptureGL.flip at h
  split_ifs at h with h1 h2
  · simp at h
  · simp at h
  · exact ⟨h1, h2⟩

theorem flip_false_true (w : World) (hprog : w.st.prog ≠ 0) (hloc : w.st.u_texcoords ≠ -1) :
    ScreenCaptureGL.flip false true w =
      (0, { st := w.st,
            log := w.log ++ [Event.glUseProgram w.st.prog,
              Event.glUniform1fv w.st.u_texcoords 8 tex_vert] }) := by
  simp [ScreenCaptureGL.flip, flip_texcoords, hprog, hloc, World.emit]

/-- Called with the program already created, `setupShaders` itself reports an
error; the guard that makes the bootstrap repeatable is in `setupGraphics`. -/
theorem setupShaders_again (P : Platform) (w : World) (gl : ScreenCaptureGL)
    (hprog : w.st.prog ≠ 0) :
    ScreenCaptureGL.setupShaders P w gl = some (-1, w, gl) := by
  simp [ScreenCaptureGL.setupShaders, hprog]

/-- A successful `setupGraphics` ends with the successful `flip(false, true)`. -/
theorem setupGraphics_success (P : Platform) (w : World) (gl : ScreenCaptureGL)
    {w1 : World} {gl1 : ScreenCaptureGL}
    (h : ScreenCaptureGL.setupGraphics P w gl = some (0, w1, gl1)) :
    ∃ wa, (ScreenCaptureGL.flip false true wa).1 = 0 ∧
      w1 = (ScreenCaptureGL.flip false true wa).2 := by
  unfold ScreenCaptureGL.setupGraphics at h
  simp only at h
  split at h
  · exact absurd h (by simp)
  · split_ifs at h <;> simp only [Option.some.injEq, Prod.mk.injEq] at h <;>
      first
        | exact absurd h.1 (by decide)
        | exact ⟨_, not_not.mp (by assumption), h.2.1.symm⟩

/-- A successful `setupTextures` appends the texture calls and keeps the
statics. -/
theorem setupTextures_ok (P : Platform) (w : World) (gl : ScreenCaptureGL)
    (h : (ScreenCaptureGL.setupTextures P w gl).1 = 0) :
    (ScreenCaptureGL.setupTextures P w gl).2.1 =
      { st := w.st, log := w.log ++ texture_calls P w gl } := by
  unfold ScreenCaptureGL.setupTextures at h ⊢
  simp only at h ⊢
  split_ifs at h ⊢
  · simp at h
  · simp at h
  · simp at h
  · simp [World.emit, texture_calls]
  · simp at h

/-- A failing `setupTextures` makes no outside call and changes nothing. -/
theorem setupTextures_fail (P : Platform) (w : World) (gl : ScreenCaptureGL)
    (h : (ScreenCaptureGL.setupTextures P w gl).1 ≠ 0) :
    (ScreenCaptureGL.setupTextures P w gl).2.1 = w := by
  unfold ScreenCaptureGL.setupTextures at h ⊢
  simp only at h ⊢
  split_ifs at h ⊢
  · rfl
  · rfl
  · rfl
  · simp at h
  · rfl

/-- The second run of `setupGraphics`, once program and vertex array exist:
either the instance's own texture step fails (status -2, nothing done), or
the status is 0 and the calls made are the texture calls, if the instance has
no texture yet, followed by the calls of `flip(false, true)`. -/
theorem setupGraphics_second (P : Platform) (w1 : World) (B : ScreenCaptureGL)
    (hprog : w1.st.prog ≠ 0) (hloc : w1.st.u_texcoords ≠ -1) (hvao : w1.st.vao ≠ 0) :
    ∃ r2 B2 T, ScreenCaptureGL.setupGraphics P w1 B =
        some (r2, { st := w1.st, log := w1.log ++ T }, B2) ∧
      ((r2 = -2 ∧ T = [] ∧ B.tex0 = 0 ∧ (ScreenCaptureGL.setupTextures P w1 B).1 ≠ 0) ∨
       (r2 = 0 ∧ (B.tex0 ≠ 0 ∨ (ScreenCaptureGL.setupTextures P w1 B).1 = 0) ∧
         (T = [Event.glUseProgram w1.st.prog,
               Event.glUniform1fv w1.st.u_texcoords 8 tex_vert] ∨
          T = texture_calls P w1 B ++ [Event.glUseProgram w1.st.prog,
               Event.glUniform1fv w1.st.u_texcoords 8 tex_vert]))) := by
  by_cases ht : B.tex0 = 0
  · by_cases h0 : (ScreenCaptureGL.setupTextures P w1 B).1 = 0
    · have hw := setupTextures_ok P w1 B h0
      refine ⟨0, { (ScreenCaptureGL.setupTextures P w1 B).2.2 with
          vm := create_identity_matrix }, _, ?_, Or.inr ⟨rfl, Or.inr h0, Or.inr rfl⟩⟩
      unfold ScreenCaptureGL.setupGraphics
      simp only [hprog, if_false, ht, if_true, h0, ne_eq, not_true_eq_false,
        not_false_eq_true]
      rw [hw]
      simp only [hvao, if_false]
      rw [flip_false_true { st := w1.st, log := w1.log ++ texture_calls P w1 B } hprog hloc]
      simp
    · have hw := setupTextures_fail P w1 B h0
      refine ⟨-2, (ScreenCaptureGL.setupTextures P w1 B).2.2, [], ?_,
        Or.inl ⟨rfl, rfl, ht, h0⟩⟩
      unfold ScreenCaptureGL.setupGraphics
      simp only [hprog, if_false, ht, if_true, h0, ne_eq, not_true_eq_false,
        not_false_eq_true]
      rw [hw]
      simp
  · refine ⟨0, { B with vm := create_identity_matrix }, _, ?_,
      Or.inr ⟨rfl, Or.inl ht, Or.inl rfl⟩⟩
    unfold ScreenCaptureGL.setupGraphics
    simp only [hprog, if_false, ht, ne_eq, not_true_eq_false, not_false_eq_true, hvao]
    rw [flip_false_true _ hprog hloc]
    simp

/-- C9, as stated, fails.  (1) After a first invocation of `setupGraphics`
that succeeded and left a vertex array, the invocation for a second instance
whose stored settings are -1x-1 BGRA does not return success: its status is
-2, from the instance's own texture step (and `configure` with these
settings, which allocates a 4-byte staging buffer and reaches
`setupGraphics`, returns -4).  (2) On a platform whose first
`glGenVertexArrays` stores no name, the first invocation succeeds with
`vao = 0`, and the second invocation generates a vertex array again and
changes the static `vao`: two `glGenVertexArrays` calls were made in all. -/
theorem C9_second_invocation_counterexample :
    (first_bootstrap = some (0, world_bootstrapped, gl_bootstrapped) ∧
      world_bootstrapped.st.vao ≠ 0 ∧
      (ScreenCaptureGL.setupGraphics Platform.ok world_bootstrapped instance_negative).map
        (fun r => r.1) = some (-2) ∧
      (ScreenCaptureGL.configure Platform.ok settings_negative world_bootstrapped
          (ScreenCaptureGL.new settings_none)).map
        (fun r => (r.1, r.2.2.pixels)) = some (-4, some [0, 0, 0, 0])) ∧
    (late_bootstrap = some (0, world_late, gl_late) ∧
      world_late.st.vao = 0 ∧
      world_late.log.count Event.glGenVertexArrays = 1 ∧
      (ScreenCaptureGL.setupGraphics Platform.late_vao world_late second_instance).map
        (fun r => (r.1, decide (r.2.1.st.vao = world_late.st.vao),
          r.2.1.log.count Event.glGenVertexArrays)) = some (0, false, 2)) :=
  ⟨⟨rfl, by decide, by decide, by decide⟩, ⟨rfl, by decide, by decide, by decide⟩⟩

/-- C9 (amended): when `setupGraphics` (the shared bootstrap, followed by the
texture of the invoking instance) has succeeded for one instance, leaving a
vertex array (`vao` non-zero), and is then invoked for a second instance, the
second invocation passes the shared part without effect: it makes no call
that creates, compiles, attaches or links a shader or program or generates a
vertex array, so the shared-resource calls of the log stay those of the first
invocation; the statics (`prog`, `vert`, `frag`, `vao`, the four uniform
locations) are unchanged; the uploaded shared uniform values (matrices,
sampler, texture coordinates) and the current program are as the first
invocation left them; and it returns 0 exactly when the second instance
already has a texture or its own texture step succeeds, and -2 otherwise. -/
theorem C9_shared_bootstrap_idempotent (P : Platform) (w : World) (A : ScreenCaptureGL)
    (w1 : World) (A1 : ScreenCaptureGL) (B : ScreenCaptureGL)
    (hfirst : ScreenCaptureGL.setupGraphics P w A = some (0, w1, A1))
    (hvao : w1.st.vao ≠ 0) :
    ∃ r2 w2 B2, ScreenCaptureGL.setupGraphics P w1 B = some (r2, w2, B2) ∧
      (r2 = 0 ∨ r2 = -2) ∧
      (r2 = 0 ↔ (B.tex0 ≠ 0 ∨ (ScreenCaptureGL.setupTextures P w1 B).1 = 0)) ∧
      w2.st = w1.st ∧ w1.st.prog ≠ 0 ∧
      (∀ e ∈ w2.log.drop w1.log.length, e.builds_shared = false) ∧
      w2.log.filter Event.builds_shared = w1.log.filter Event.builds_shared ∧
      current_program w2.log = current_program w1.log ∧
      current_texcoords w2.log = current_texcoords w1.log ∧
      (∀ loc, current_matrix w2.log loc = current_matrix w1.log loc) ∧
      (∀ loc, current_sampler w2.log loc = current_sampler w1.log loc) := by
  obtain ⟨wa, hz, hw1⟩ := setupGraphics_success P w A hfirst
  obtain ⟨hpa, hla⟩ := flip_eq_zero false true wa hz
  rw [flip_false_true wa hpa hla] at hw1
  have hprog : w1.st.prog ≠ 0 := by rw [hw1]; exact hpa
  have hloc : w1.st.u_texcoords ≠ -1 := by rw [hw1]; exact hla
  have hst : wa.st = w1.st := by rw [hw1]
  have hlog : w1.log = wa.log ++ [Event.glUseProgram w1.st.prog,
      Event.glUniform1fv w1.st.u_texcoords 8 tex_vert] := by
    rw [← hst, hw1]
  obtain ⟨r2, B2, T, hsecond, hcases⟩ := setupGraphics_second P w1 B hprog hloc hvao
  have hT : T = [] ∨
      T = [Event.glUseProgram w1.st.prog, Event.glUniform1fv w1.st.u_texcoords 8 tex_vert] ∨
      T = texture_calls P w1 B ++ [Event.glUseProgram w1.st.prog,
        Event.glUniform1fv w1.st.u_texcoords 8 tex_vert] := by
    rcases hcases with ⟨-, h, -, -⟩ | ⟨-, -, h | h⟩
    · exact Or.inl h
    · exact Or.inr (Or.inl h)
    · exact Or.inr (Or.inr h)
  refine ⟨r2, _, B2, hsecond, ?_, ?_, rfl, hprog, ?_, ?_, ?_, ?_, ?_, ?_⟩
  · rcases hcases with ⟨h, -⟩ | ⟨h, -⟩
    · exact Or.inr h
    · exact Or.inl h
  · rcases hcases with ⟨h, -, ht, h0⟩ | ⟨h, hok, -⟩
    · subst h
      constructor
      · intro hc
        exact absurd hc (by decide)
      · rintro (hc | hc)
        · exact absurd ht hc
        · exact absurd hc h0
    · subst h
      exact ⟨fun _ => hok, fun _ => rfl⟩
  · intro e he
    simp only [List.drop_left] at he
    rcases hT with rfl | rfl | rfl
    · simp at he
    · simp at he
      rcases he with rfl | rfl <;> rfl
    · simp [texture_calls] at he
      rcases he with rfl | rfl | rfl | rfl | rfl | rfl | rfl | rfl | rfl <;> rfl
  · rcases hT with rfl | rfl | rfl <;>
      simp [List.filter_append, texture_calls, Event.builds_shared]
  · rw [hlog]
    rcases hT with rfl | rfl | rfl <;>
      simp [current_program, texture_calls]
  · rw [hlog]
    rcases hT with rfl | rfl | rfl <;>
      simp [current_texcoords, texture_calls]
  · intro loc
    rcases hT with rfl | rfl | rfl <;>
      simp [current_matrix, texture_calls]
  · intro loc
    rcases hT with rfl | rfl | rfl <;>
      simp [current_sampler, texture_calls]

/-- C9 (amended) applied to the first bootstrap of a process and a second
instance with 640x480 settings: the second invocation returns 0, and one program and
one vertex array were created in all. -/
theorem C9_shared_bootstrap_idempotent_witness :
    first_bootstrap = some (0, world_bootstrapped, gl_bootstrapped) ∧
    world_bootstrapped.st.vao ≠ 0 ∧
    world_bootstrapped.log.count Event.glCreateProgram = 1 ∧
    world_bootstrapped.log.count Event.glGenVertexArrays = 1 ∧
    (ScreenCaptureGL.setupGraphics Platform.ok world_bootstrapped second_instance).map
      (fun r => r.1) = some 0 ∧
    ∃ r2 w2 B2, ScreenCaptureGL.setupGraphics Platform.ok world_bootstrapped
        second_instance = some (r2, w2, B2) ∧
      (r2 = 0 ∨ r2 = -2) ∧
      (r2 = 0 ↔ (second_instance.tex0 ≠ 0 ∨
        (ScreenCaptureGL.setupTextures Platform.ok world_bootstrapped second_instance).1 = 0)) ∧
      w2.st = world_bootstrapped.st ∧ world_bootstrapped.st.prog ≠ 0 ∧
      (∀ e ∈ w2.log.drop world_bootstrapped.log.length, e.builds_shared = false) ∧
      w2.log.filter Event.builds_shared =
        world_bootstrapped.log.filter Event.builds_shared ∧
      current_program w2.log = current_program world_bootstrapped.log ∧
      current_texcoords w2.log = current_texcoords world_bootstrapped.log ∧
      (∀ loc, current_matrix w2.log loc = current_matrix world_bootstrapped.log loc) ∧
      (∀ loc, current_sampler w2.log loc = current_sampler world_bootstrapped.log loc) :=
  ⟨rfl, by decide, by decide, by decide, by decide,
    C9_shared_bootstrap_idempotent Platform.ok World.initial first_instance
      world_bootstrapped gl_bootstrapped second_instance rfl (by decide)⟩

/-! ## C10: `shutdown` -/

/-- C10: for every instance state, `shutdown()` releases what the instance
holds: after destroying the mutex and shutting down the capture source it
frees the staging buffer with `delete[]` if it is allocated and deletes
`tex0` and `tex1` with `glDeleteTextures` if they are non-zero, and it makes
no other outside call; afterwards the staging buffer is NULL, `tex0` and
`tex1` are 0 and the dirty flag is false.  A second `shutdown()` leaves the
instance and the statics unchanged and releases nothing again: apart from
destroying the mutex and shutting down the capture source once more it makes
no outside call (no `delete[]`, no `glDeleteTextures`). -/
theorem C10_shutdown_idempotent (P : Platform) (w : World) (gl : ScreenCaptureGL) :
    (ScreenCaptureGL.shutdown P w gl).2.1.log =
      w.log ++ [Event.pthread_mutex_destroy, Event.cap_shutdown] ++
        (if gl.pixels ≠ none then [Event.delete_array] else []) ++
        (if gl.tex0 ≠ 0 then [Event.glDeleteTextures gl.tex0] else []) ++
        (if gl.tex1 ≠ 0 then [Event.glDeleteTextures gl.tex1] else []) ∧
    (ScreenCaptureGL.shutdown P w gl).2.1.st = w.st ∧
    (ScreenCaptureGL.shutdown P w gl).2.2 =
      { gl with pixels := none, tex0 := 0, tex1 := 0, has_new_frame := false } ∧
    (ScreenCaptureGL.shutdown P w gl).2.2.pixels = none ∧
    (ScreenCaptureGL.shutdown P w gl).2.2.tex0 = 0 ∧
    (ScreenCaptureGL.shutdown P w gl).2.2.tex1 = 0 ∧
    (ScreenCaptureGL.shutdown P w gl).2.2.has_new_frame = false ∧
    (ScreenCaptureGL.shutdown P (ScreenCaptureGL.shutdown P w gl).2.1
        (ScreenCaptureGL.shutdown P w gl).2.2).2.2 = (ScreenCaptureGL.shutdown P w gl).2.2 ∧
    (ScreenCaptureGL.shutdown P (ScreenCaptureGL.shutdown P w gl).2.1
        (ScreenCaptureGL.shutdown P w gl).2.2).2.1.st =
      (ScreenCaptureGL.shutdown P w gl).2.1.st ∧
    (ScreenCaptureGL.shutdown P (ScreenCaptureGL.shutdown P w gl).2.1
        (ScreenCaptureGL.shutdown P w gl).2.2).2.1.log =
      (ScreenCaptureGL.shutdown P w gl).2.1.log ++
        [Event.pthread_mutex_destroy, Event.cap_shutdown] := by
  refine ⟨?_, ?_, rfl, rfl, rfl, rfl, rfl, rfl, ?_, ?_⟩
  · simp only [ScreenCaptureGL.shutdown, sc_gl_destroy_mutex]
    split_ifs <;> simp [World.emit]
  · simp only [ScreenCaptureGL.shutdown, sc_gl_destroy_mutex]
    split_ifs <;> rfl
  · simp only [ScreenCaptureGL.shutdown, sc_gl_destroy_mutex, ne_eq, not_true_eq_false,
      if_false]
    split_ifs <;> rfl
  · simp only [ScreenCaptureGL.shutdown, sc_gl_destroy_mutex, ne_eq, not_true_eq_false,
      if_false]
    split_ifs <;> simp

/-! ## C11: status codes -/

/-- The statuses each operation can return: all are 0 or negative. -/
theorem status_values (P : Platform) (w : World) (gl : ScreenCaptureGL) :
    ((ScreenCaptureGL.init P w).1 ∈ [0, -1]) ∧
    ((ScreenCaptureGL.shutdown P w gl).1 ∈ [0, -1, -2, -3]) ∧
    (∀ horizontal vertical, (ScreenCaptureGL.flip horizontal vertical w).1 ∈ [0, -1, -2]) ∧
    ((ScreenCaptureGL.setupTextures P w gl).1 ∈ [0, -1, -2, -3, -4]) ∧
    (∀ projection, (ScreenCaptureGL.setProjectionMatrix P projection w gl).1 ∈ [0, -1, -2]) := by
  refine ⟨?_, ?_, ?_, ?_, ?_⟩
  · unfold ScreenCaptureGL.init
    simp only
    split_ifs <;> simp
  · unfold ScreenCaptureGL.shutdown
    simp only
    split_ifs <;> simp
  · intro horizontal vertical
    unfold ScreenCaptureGL.flip
    split_ifs
    · simp
    · simp
    · split <;> simp
  · unfold ScreenCaptureGL.setupTextures
    simp only
    split_ifs <;> simp
  · intro projection
    unfold ScreenCaptureGL.setProjectionMatrix
    split_ifs
    · simp
    · split <;> simp

/-- The statuses of the operations that may stop at a failed `assert`. -/
theorem status_values_setup (P : Platform) (w : World) (gl : ScreenCaptureGL)
    {r : Int} {w1 : World} {gl1 : ScreenCaptureGL} :
    (ScreenCaptureGL.setupShaders P w gl = some (r, w1, gl1) →
      r ∈ [0, -1, -2, -3, -4, -5]) ∧
    (ScreenCaptureGL.setupGraphics P w gl = some (r, w1, gl1) → r ∈ [0, -1, -2, -3]) ∧
    (∀ cfg, ScreenCaptureGL.configure P cfg w gl = some (r, w1, gl1) →
      r ∈ [0, -1, -2, -3, -4]) := by
  refine ⟨?_, ?_, ?_⟩
  · intro h
    unfold ScreenCaptureGL.setupShaders at h
    simp only at h
    repeat' split at h
    all_goals
      first
        | exact Option.noConfusion h
        | (have h0 := (setupShaders_uniforms_inst P _ gl h).1
           subst h0
           simp)
        | (simp only [Option.some.injEq, Prod.mk.injEq] at h
           obtain ⟨rfl, -, -⟩ := h
           simp)
  · intro h
    unfold ScreenCaptureGL.setupGraphics at h
    simp only at h
    split at h
    · exact absurd h (by simp)
    · split_ifs at h <;> simp only [Option.some.injEq, Prod.mk.injEq] at h <;>
        obtain ⟨rfl, -, -⟩ := h <;> simp
  · intro cfg h
    unfold ScreenCaptureGL.configure at h
    simp only at h
    split_ifs at h <;>
      first
        | (simp only [Option.some.injEq, Prod.mk.injEq] at h
           obtain ⟨rfl, -, -⟩ := h
           simp)
        | (split at h
           · exact absurd h (by simp)
           · split_ifs at h <;> simp only [Option.some.injEq, Prod.mk.injEq] at h <;>
               obtain ⟨rfl, -, -⟩ := h <;> simp)

/-- C11 at its failing inputs: distinct failure branches of one operation
return the same code.  `init()` returns -1 when the mutex cannot be created
(no call to the capture source is made) and -1 again when the mutex is
created and `cap.init()` fails; `setupShaders()` returns -2 when the pixel
format is `SC_NONE` (no outside call is made) and -2 again when the format is
`SC_BGRA` and the vertex shader does not compile. -/
theorem C11_repeated_codes_failing_input :
    (Platform.no_mutex.pthread_mutex_init World.initial.log ≠ 0 ∧
      ScreenCaptureGL.init Platform.no_mutex World.initial =
        (-1, { st := Statics.initial, log := [Event.pthread_mutex_init] })) ∧
    (Platform.no_capture.pthread_mutex_init World.initial.log = 0 ∧
      Platform.no_capture.cap_init [Event.pthread_mutex_init] ≠ 0 ∧
      ScreenCaptureGL.init Platform.no_capture World.initial =
        (-1, { st := Statics.initial, log := [Event.pthread_mutex_init, Event.cap_init] })) ∧
    ((ScreenCaptureGL.new settings_none).settings.pixel_format = PixelFormat.SC_NONE ∧
      ScreenCaptureGL.setupShaders Platform.no_shader World.initial
          (ScreenCaptureGL.new settings_none) =
        some (-2, World.initial, ScreenCaptureGL.new settings_none)) ∧
    (first_instance.settings.pixel_format = PixelFormat.SC_BGRA ∧
      (ScreenCaptureGL.setupShaders Platform.no_shader World.initial first_instance).map
          (fun r => (r.1, r.2.1.log)) =
        some (-2, [Event.glCreateShader ShaderType.GL_VERTEX_SHADER,
          Event.glShaderSource 1 ShaderSrc.SCREENCAPTURE_GL_VS, Event.glCompileShader 1,
          Event.glGetShaderiv 1 GLParam.GL_COMPILE_STATUS,
          Event.glGetShaderiv 1 GLParam.GL_INFO_LOG_LENGTH, Event.glGetShaderInfoLog 1])) := by
  decide

/-! ## C13: `setupTextures` and the stored dimensions -/

/-- With a negative output width or height `setupTextures` returns -1 or -2,
makes no outside call and changes nothing. -/
theorem setupTextures_negative (P : Platform) (w : World) (gl : ScreenCaptureGL)
    (hneg : gl.settings.output_width < 0 ∨ gl.settings.output_height < 0) :
    (ScreenCaptureGL.setupTextures P w gl).1 < 0 ∧
      (ScreenCaptureGL.setupTextures P w gl).2 = (w, gl) := by
  unfold ScreenCaptureGL.setupTextures
  simp only
  by_cases hw : 0 > gl.settings.output_width
  · simp [hw]
  · have hh : 0 > gl.settings.output_height := by
      rcases hneg with h | h
      · exact absurd h hw
      · exact h
    simp [hw, hh]

/-- C13 at its failing input: with the stored BGRA settings 0x480 (output
width zero) and no texture yet, `setupTextures` returns 0, generates a
texture, allocates it with `glTexImage2D(.., 0, 480, ..)` and stores its name
in `tex0`: the test is `0 > settings.output_width`, which zero passes. -/
theorem C13_zero_width_failing_input :
    instance_0x480.settings.output_width ≤ 0 ∧
    ScreenCaptureGL.setupTextures Platform.ok World.initial instance_0x480 =
      (0,
        { st := Statics.initial,
          log := [Event.glGenTextures, Event.glBindTexture 1, Event.glTexImage2D 0 480,
            Event.glTexParameteri GLParam.GL_TEXTURE_WRAP_S,
            Event.glTexParameteri GLParam.GL_TEXTURE_WRAP_T,
            Event.glTexParameteri GLParam.GL_TEXTURE_MIN_FILTER,
            Event.glTexParameteri GLParam.GL_TEXTURE_MAG_FILTER] },
        { instance_0x480 with tex0 := 1 }) ∧
    instance_0x480.tex0 = 0 := by
  decide

/-! ## C14: `setupShaders` after a compile or link failure -/

/-- A failed `create_program` leaves 0 in `*out`. -/
theorem create_program_failed (P : Platform) (vert frag : Nat) (link : Int) (w : World)
    (h : (create_program P vert frag link w).1 ≠ 0) :
    (create_program P vert frag link w).2.1 = 0 := by
  unfold create_program at h ⊢
  simp only at h ⊢
  split_ifs at h ⊢
  · rfl
  · simp at h
  · simp at h

theorem print_shader_compile_info_st (P : Platform) (shader : Nat) (w : World)
    {r : Int × World} (h : print_shader_compile_info P shader w = some r) :
    r.2.st = w.st := by
  unfold print_shader_compile_info at h
  simp only at h
  split_ifs at h <;> simp only [Option.some.injEq] at h <;> subst h <;> rfl

theorem create_shader_st (P : Platform) (type : ShaderType) (src : ShaderSrc) (w : World)
    {cv : Int × Nat × World} (h : create_shader P type src w = some cv) :
    cv.2.2.st = w.st := by
  unfold create_shader at h
  simp only at h
  split at h
  · exact Option.noConfusion h
  · rename_i r hr
    have hst := print_shader_compile_info_st P _ _ hr
    split_ifs at h <;> simp only [Option.some.injEq] at h <;> subst h <;> exact hst

/-- When the shader does not compile and the driver stores at least one byte
of a non-empty info log, `print_shader_compile_info` writes outside its
zero-size buffer. -/
theorem print_shader_compile_info_overflow (P : Platform) (shader : Nat) (w : World)
    (hstatus : P.compile_status w.log shader = 0)
    (hlen : 0 < P.shader_info_log_length
      (w.log ++ [Event.glGetShaderiv shader GLParam.GL_COMPILE_STATUS]) shader)
    (hwritten : P.shader_info_log_written
      (w.log ++ [Event.glGetShaderiv shader GLParam.GL_COMPILE_STATUS,
        Event.glGetShaderiv shader GLParam.GL_INFO_LOG_LENGTH]) shader ≠ 0) :
    print_shader_compile_info P shader w = none := by
  unfold print_shader_compile_info
  simp only [hstatus, emit_log, List.append_assoc, List.singleton_append, ne_eq,
    not_true_eq_false, if_false]
  rw [if_neg (not_le.mpr hlen)]
  simp [hwritten]

/-- A `setupShaders` that fails returns a negative status and leaves the
program handle as it found it (0, unless the program existed already). -/
theorem setupShaders_failed_prog (P : Platform) (w : World) (gl : ScreenCaptureGL)
    {r : Int} {w1 : World} {gl1 : ScreenCaptureGL}
    (h : ScreenCaptureGL.setupShaders P w gl = some (r, w1, gl1)) (hr : r ≠ 0) :
    r < 0 ∧ w1.st.prog = w.st.prog := by
  unfold ScreenCaptureGL.setupShaders at h
  by_cases h1 : w.st.prog ≠ 0
  · rw [if_pos h1] at h
    simp only [Option.some.injEq, Prod.mk.injEq] at h
    obtain ⟨rfl, rfl, -⟩ := h
    exact ⟨by decide, rfl⟩
  rw [if_neg h1] at h
  by_cases h2 : gl.settings.pixel_format = PixelFormat.SC_NONE
  · rw [if_pos h2] at h
    simp only [Option.some.injEq, Prod.mk.injEq] at h
    obtain ⟨rfl, rfl, -⟩ := h
    exact ⟨by decide, rfl⟩
  rw [if_neg h2] at h
  cases hcv : create_shader P ShaderType.GL_VERTEX_SHADER ShaderSrc.SCREENCAPTURE_GL_VS w with
  | none =>
    rw [hcv] at h
    exact Option.noConfusion h
  | some cv =>
    rw [hcv] at h
    simp only at h
    have hv := create_shader_st P _ _ _ hcv
    by_cases h3 : cv.1 ≠ 0
    · rw [if_pos h3] at h
      simp only [Option.some.injEq, Prod.mk.injEq] at h
      obtain ⟨rfl, rfl, -⟩ := h
      exact ⟨by decide, hv ▸ rfl⟩
    rw [if_neg h3] at h
    by_cases h4 : gl.settings.pixel_format = PixelFormat.SC_BGRA
    swap
    · rw [if_neg h4] at h
      simp only [Option.some.injEq, Prod.mk.injEq] at h
      obtain ⟨rfl, rfl, -⟩ := h
      exact ⟨by decide, hv ▸ rfl⟩
    rw [if_pos h4] at h
    split at h
    · exact Option.noConfusion h
    · rename_i cf hcf
      have hf := create_shader_st P _ _ _ hcf
      simp only at hf
      split_ifs at h with h5 h6
      · simp only [Option.some.injEq, Prod.mk.injEq] at h
        obtain ⟨rfl, rfl, -⟩ := h
        refine ⟨by decide, ?_⟩
        show cf.2.2.st.prog = w.st.prog
        rw [hf]
        exact hv ▸ rfl
      · simp only [Option.some.injEq, Prod.mk.injEq] at h
        obtain ⟨rfl, rfl, -⟩ := h
        refine ⟨by decide, ?_⟩
        simp only [emit_st]
        rw [create_program_failed P _ _ 1 _ h6]
        exact (not_not.mp h1).symm
      · exact absurd (setupShaders_uniforms_inst P _ gl h).1 hr

/-- C14 at its failing inputs, each from the initial statics with BGRA
settings.  (1) The vertex shader compiles and the fragment shader does not:
status -3, `vert` still holds the vertex shader 1, and neither shader object
is deleted.  (2) Both shaders compile and the program does not link: status
-5, the two shaders are deleted but `vert` and `frag` hold 4294967295 (the
`GLuint` value of -1), not 0, and the program object 9 is not deleted.
(3) The vertex shader does not compile: status -2 and all three handles are
0, but the shader object 1 is not deleted. -/
theorem C14_failed_setup_failing_input :
    (ScreenCaptureGL.setupShaders Platform.no_fragment World.initial first_instance).map
        (fun r => (r.1, r.2.1.st.prog, r.2.1.st.vert, r.2.1.st.frag,
          r.2.1.log.filter (fun e => e = Event.glDeleteShader 1 ∨ e = Event.glDeleteShader 5))) =
      some (-3, 0, 1, 0, []) ∧
    (ScreenCaptureGL.setupShaders Platform.no_link World.initial first_instance).map
        (fun r => (r.1, r.2.1.st.prog, r.2.1.st.vert, r.2.1.st.frag,
          r.2.1.log.filter (fun e => e = Event.glDeleteShader 1 ∨ e = Event.glDeleteShader 5),
          r.2.1.log.filter (fun e => e = Event.glCreateProgram))) =
      some (-5, 0, 4294967295, 4294967295,
        [Event.glDeleteShader 1, Event.glDeleteShader 5], [Event.glCreateProgram]) ∧
    (ScreenCaptureGL.setupShaders Platform.no_shader World.initial first_instance).map
        (fun r => (r.1, r.2.1.st.prog, r.2.1.st.vert, r.2.1.st.frag, r.2.1.log)) =
      some (-2, 0, 0, 0,
        [Event.glCreateShader ShaderType.GL_VERTEX_SHADER,
          Event.glShaderSource 1 ShaderSrc.SCREENCAPTURE_GL_VS, Event.glCompileShader 1,
          Event.glGetShaderiv 1 GLParam.GL_COMPILE_STATUS,
          Event.glGetShaderiv 1 GLParam.GL_INFO_LOG_LENGTH, Event.glGetShaderInfoLog 1]) :=
  ⟨rfl, rfl, rfl⟩

/-! ## C12: the dimensions of the instance texture -/

/-- A successful `configure` ends in a successful `setupGraphics` on the
instance with the new settings stored. -/
theorem configure_success (P : Platform) (cfg : Settings) (w : World) (gl : ScreenCaptureGL)
    {w1 : World} {gl1 : ScreenCaptureGL}
    (h : ScreenCaptureGL.configure P cfg w gl = some (0, w1, gl1)) :
    ∃ w3 gl3, gl3.settings = cfg ∧ gl3.tex0 = gl.tex0 ∧ gl3.vm = gl.vm ∧
      w3.st = w.st ∧ ScreenCaptureGL.setupGraphics P w3 gl3 = some (0, w1, gl1) := by
  have key : ∀ (W : World) (G : ScreenCaptureGL),
      (match ScreenCaptureGL.setupGraphics P W G with
        | none => none
        | some (r4, w4, gl4) => if r4 ≠ 0 then some (-4, w4, gl4) else some (0, w4, gl4)) =
        some (0, w1, gl1) →
      ScreenCaptureGL.setupGraphics P W G = some (0, w1, gl1) := by
    intro W G hm
    split at hm
    · exact absurd hm (by simp)
    · rename_i r4 w4 gl4 hs
      split_ifs at hm with hr
      · simp at hm
      · simp only [Option.some.injEq, Prod.mk.injEq, true_and] at hm
        obtain ⟨rfl, rfl⟩ := hm
        rw [hs, not_not.mp hr]
  unfold ScreenCaptureGL.configure at h
  simp only at h
  split_ifs at h with hf hc hb hp hp
  · simp at h
  · simp at h
  · refine ⟨_, _, ?_, ?_, ?_, ?_, key _ _ h⟩ <;> rfl
  · refine ⟨_, _, ?_, ?_, ?_, ?_, key _ _ h⟩ <;> rfl
  · simp at h
  · simp at h

/-- A successful `setupTextures` stores the generated name in `tex0`. -/
theorem setupTextures_ok_inst (P : Platform) (w : World) (gl : ScreenCaptureGL)
    (h : (ScreenCaptureGL.setupTextures P w gl).1 = 0) :
    (ScreenCaptureGL.setupTextures P w gl).2.2 = { gl with tex0 := P.glGenTextures w.log } := by
  unfold ScreenCaptureGL.setupTextures at h ⊢
  simp only at h ⊢
  split_ifs at h ⊢
  · simp at h
  · simp at h
  · simp at h
  · rfl
  · simp at h

/-- A successful `setupGraphics` entered without instance texture: its log
ends with the texture calls for the stored dimensions, followed only by the
generation of the vertex array (if needed) and the calls of `flip`. -/
theorem setupGraphics_fresh_texture (P : Platform) (w : World) (gl : ScreenCaptureGL)
    {w1 : World} {gl1 : ScreenCaptureGL}
    (h : ScreenCaptureGL.setupGraphics P w gl = some (0, w1, gl1)) (htex : gl.tex0 = 0) :
    ∃ ws tail, w1.log = ws.log ++ texture_calls P ws gl ++ tail ∧
      gl1.tex0 = P.glGenTextures ws.log ∧ gl1.settings = gl.settings ∧
      (tail = [Event.glUseProgram w1.st.prog,
          Event.glUniform1fv w1.st.u_texcoords 8 tex_vert] ∨
       tail = [Event.glGenVertexArrays, Event.glUseProgram w1.st.prog,
          Event.glUniform1fv w1.st.u_texcoords 8 tex_vert]) := by
  unfold ScreenCaptureGL.setupGraphics at h
  simp only at h
  split at h
  · exact absurd h (by simp)
  · rename_i rs ws gls hs
    have hgls : ∃ pm, gls = { gl with pm := pm } := by
      split at hs
      · exact setupShaders_inst P w gl hs
      · simp only [Option.some.injEq, Prod.mk.injEq] at hs
        exact ⟨gl.pm, hs.2.2.symm⟩
    have ht0 : gls.tex0 = 0 := by
      obtain ⟨pm, rfl⟩ := hgls
      exact htex
    have hset : gls.settings = gl.settings := by
      obtain ⟨pm, rfl⟩ := hgls
      rfl
    have htc : texture_calls P ws gls = texture_calls P ws gl := by
      simp [texture_calls, hset]
    clear hgls hs
    by_cases hrs : rs = 0
    swap
    · simp [hrs] at h
    by_cases h0 : (ScreenCaptureGL.setupTextures P ws gls).1 = 0
    swap
    · simp [hrs, ht0, h0] at h
    have hw := setupTextures_ok P ws gls h0
    have hi := setupTextures_ok_inst P ws gls h0
    simp only [hrs, ne_eq, not_true_eq_false, if_false, ht0, if_true, h0, hw, hi] at h
    rw [htc] at h
    by_cases hv : ws.st.vao = 0
    · simp only [hv, if_true] at h
      split_ifs at h with hf
      · simp only [emit_log, List.append_assoc] at hf h
        obtain ⟨hp, hl⟩ := flip_eq_zero false true _ hf
        rw [flip_false_true _ hp hl] at h
        simp only [Option.some.injEq, Prod.mk.injEq, true_and] at h
        obtain ⟨rfl, rfl⟩ := h
        exact ⟨ws, _, by simp, rfl, hset, Or.inr rfl⟩
      · simp at h
    · simp only [hv, if_false] at h
      split_ifs at h with hf
      · obtain ⟨hp, hl⟩ := flip_eq_zero false true _ hf
        rw [flip_false_true _ hp hl] at h
        simp only [Option.some.injEq, Prod.mk.injEq, true_and] at h
        obtain ⟨rfl, rfl⟩ := h
        exact ⟨ws, _, by simp, rfl, hset, Or.inl rfl⟩
      · simp at h

/-- After the texture calls, followed by calls that neither bind, allocate
nor delete a texture, the generated texture has the stored dimensions. -/
theorem allocated_dims_texture_calls (P : Platform) (ws : World) (gl : ScreenCaptureGL)
    (p : Nat) (loc : Int) (tail : List Event)
    (htail : tail = [Event.glUseProgram p, Event.glUniform1fv loc 8 tex_vert] ∨
      tail = [Event.glGenVertexArrays, Event.glUseProgram p,
        Event.glUniform1fv loc 8 tex_vert]) :
    allocated_dims (ws.log ++ texture_calls P ws gl ++ tail) (P.glGenTextures ws.log) =
      some (gl.settings.output_width, gl.settings.output_height) := by
  unfold allocated_dims
  rw [List.foldl_append, List.foldl_append]
  generalize List.foldl (track_texture (P.glGenTextures ws.log)) (none, none) ws.log = s
  rcases htail with rfl | rfl <;> simp [texture_calls, track_texture]

/-- C12, as stated, fails: a second successful `configure()` of the 1x1
instance with 2x2 settings keeps the texture, which stays allocated 1x1,
while the stored settings, and with them the dimensions of the upload of
`update()`, are 2x2. -/
theorem C12_reconfigure_counterexample :
    configured_1x1 = some (0, world_1x1, gl_1x1) ∧
    reconfigured_2x2 = some (0, world_2x2, gl_2x2) ∧
    gl_2x2.tex0 = gl_1x1.tex0 ∧
    allocated_dims world_2x2.log gl_2x2.tex0 = some (1, 1) ∧
    (gl_2x2.settings.output_width, gl_2x2.settings.output_height) = (2, 2) ∧
    (update_effect Platform.ok world_2x2 { gl_2x2 with has_new_frame := true }).1 =
      [Event.pthread_mutex_lock, Event.glBindTexture gl_2x2.tex0,
        Event.glTexSubImage2D 2 2 gl_2x2.pixels, Event.pthread_mutex_unlock] :=
  ⟨rfl, rfl, by decide, by decide, by decide, rfl⟩

/-- C12 (amended): in the state reached by a successful `configure()` that
was entered without an instance texture (`tex0 == 0`, as after construction
or `shutdown()`), the dimensions with which the instance texture `tex0` was
allocated equal `settings.output_width` and `settings.output_height` of the
stored settings, which are the dimensions `update()` uses for its
full-texture upload. -/
theorem C12_texture_dims_first_configure (P : Platform) (cfg : Settings) (w : World)
    (gl : ScreenCaptureGL) (w1 : World) (gl1 : ScreenCaptureGL)
    (h : ScreenCaptureGL.configure P cfg w gl = some (0, w1, gl1)) (htex : gl.tex0 = 0) :
    gl1.settings = cfg ∧
    allocated_dims w1.log gl1.tex0 =
      some (gl1.settings.output_width, gl1.settings.output_height) ∧
    (update_effect P w1 { gl1 with has_new_frame := true }).1 =
      [Event.pthread_mutex_lock, Event.glBindTexture gl1.tex0,
        Event.glTexSubImage2D gl1.settings.output_width gl1.settings.output_height gl1.pixels,
        Event.pthread_mutex_unlock] := by
  obtain ⟨w3, gl3, hs3, ht3, -, -, hg⟩ := configure_success P cfg w gl h
  obtain ⟨ws, tail, hlog, hname, hset, htail⟩ :=
    setupGraphics_fresh_texture P w3 gl3 hg (ht3.trans htex)
  refine ⟨hset.trans hs3, ?_, ?_⟩
  · rw [hlog, hname, hset]
    exact allocated_dims_texture_calls P ws gl3 _ _ tail htail
  · simp [update_effect, ScreenCaptureGL.update]

/-- C12 (amended) applied to the first `configure` of a process, for 1x1. -/
theorem C12_texture_dims_first_configure_witness :
    configured_1x1 = some (0, world_1x1, gl_1x1) ∧
    (ScreenCaptureGL.new settings_none).tex0 = 0 ∧
    gl_1x1.settings = settings_1x1 ∧
    allocated_dims world_1x1.log gl_1x1.tex0 =
      some (gl_1x1.settings.output_width, gl_1x1.settings.output_height) ∧
    (update_effect Platform.ok world_1x1 { gl_1x1 with has_new_frame := true }).1 =
      [Event.pthread_mutex_lock, Event.glBindTexture gl_1x1.tex0,
        Event.glTexSubImage2D gl_1x1.settings.output_width gl_1x1.settings.output_height
          gl_1x1.pixels,
        Event.pthread_mutex_unlock] :=
  ⟨rfl, rfl,
    C12_texture_dims_first_configure Platform.ok settings_1x1 World.initial
      (ScreenCaptureGL.new settings_none) world_1x1 gl_1x1 rfl rfl⟩

/-! ## C15: the placement matrix of `draw` -/

@[simp] theorem flip_st (horizontal vertical : Bool) (w : World) :
    (ScreenCaptureGL.flip horizontal vertical w).2.st = w.st := by
  unfold ScreenCaptureGL.flip
  split_ifs
  · rfl
  · rfl
  · split <;> rfl

@[simp] theorem setupTextures_st (P : Platform) (w : World) (gl : ScreenCaptureGL) :
    (ScreenCaptureGL.setupTextures P w gl).2.1.st = w.st := by
  unfold ScreenCaptureGL.setupTextures
  simp only
  split_ifs <;> rfl

/-- `setupGraphics` leaves the view matrix as it was or sets it to the
identity; on success it is the identity. -/
theorem setupGraphics_vm (P : Platform) (w : World) (gl : ScreenCaptureGL)
    {r : Int} {w1 : World} {gl1 : ScreenCaptureGL}
    (h : ScreenCaptureGL.setupGraphics P w gl = some (r, w1, gl1)) :
    (r = 0 → gl1.vm = create_identity_matrix) ∧
      (gl1.vm = gl.vm ∨ gl1.vm = create_identity_matrix) := by
  unfold ScreenCaptureGL.setupGraphics at h
  simp only at h
  split at h
  · exact absurd h (by simp)
  · rename_i rs ws gls hs
    have hgls : ∃ pm, gls = { gl with pm := pm } := by
      split at hs
      · exact setupShaders_inst P w gl hs
      · simp only [Option.some.injEq, Prod.mk.injEq] at hs
        exact ⟨gl.pm, hs.2.2.symm⟩
    obtain ⟨pm, rfl⟩ := hgls
    obtain ⟨t, ht⟩ := setupTextures_inst P ws { gl with pm := pm }
    split_ifs at h <;> simp only [Option.some.injEq, Prod.mk.injEq] at h <;>
      obtain ⟨rfl, -, rfl⟩ := h <;> simp [ht]

/-- Once the program exists, `setupGraphics` keeps its handle. -/
theorem setupGraphics_prog (P : Platform) (w : World) (gl : ScreenCaptureGL)
    {r : Int} {w1 : World} {gl1 : ScreenCaptureGL}
    (h : ScreenCaptureGL.setupGraphics P w gl = some (r, w1, gl1))
    (hprog : w.st.prog ≠ 0) : w1.st.prog = w.st.prog := by
  unfold ScreenCaptureGL.setupGraphics at h
  simp only [hprog, if_false] at h
  split_ifs at h <;> simp only [Option.some.injEq, Prod.mk.injEq] at h <;>
    obtain ⟨-, rfl, -⟩ := h <;> simp

/-- What `configure` does to the view matrix and to an existing program. -/
theorem configure_vm_prog (P : Platform) (cfg : Settings) (w : World) (gl : ScreenCaptureGL)
    {r : Int} {w1 : World} {gl1 : ScreenCaptureGL}
    (h : ScreenCaptureGL.configure P cfg w gl = some (r, w1, gl1)) :
    (gl1.vm = gl.vm ∨ gl1.vm = create_identity_matrix) ∧
      (w.st.prog ≠ 0 → w1.st.prog = w.st.prog) := by
  have key : ∀ (W : World) (G : ScreenCaptureGL), G.vm = gl.vm → W.st = w.st →
      (match ScreenCaptureGL.setupGraphics P W G with
        | none => none
        | some (r4, w4, gl4) => if r4 ≠ 0 then some (-4, w4, gl4) else some (0, w4, gl4)) =
        some (r, w1, gl1) →
      (gl1.vm = gl.vm ∨ gl1.vm = create_identity_matrix) ∧
        (w.st.prog ≠ 0 → w1.st.prog = w.st.prog) := by
    intro W G hG hW hm
    split at hm
    · exact absurd hm (by simp)
    · rename_i r4 w4 gl4 hs
      have hv := (setupGraphics_vm P W G hs).2
      have hp := setupGraphics_prog P W G hs
      rw [hG] at hv
      rw [hW] at hp
      split_ifs at hm <;> simp only [Option.some.injEq, Prod.mk.injEq] at hm <;>
        obtain ⟨-, rfl, rfl⟩ := hm <;> exact ⟨hv, hp⟩
  unfold ScreenCaptureGL.configure at h
  simp only at h
  split_ifs at h with hf hc hb hp hp
  · simp only [Option.some.injEq, Prod.mk.injEq] at h
    obtain ⟨-, rfl, rfl⟩ := h
    exact ⟨Or.inl rfl, fun _ => rfl⟩
  · simp only [Option.some.injEq, Prod.mk.injEq] at h
    obtain ⟨-, rfl, rfl⟩ := h
    exact ⟨Or.inl rfl, fun _ => rfl⟩
  · exact key _ _ (by rfl) (by rfl) h
  · exact key _ _ (by rfl) (by rfl) h
  · exact absurd hb (by simpa using hf)
  · exact absurd hb (by simpa using hf)

/-- After a successful `configure` the view matrix is the identity and the
program exists. -/
theorem configure_success_vm_prog (P : Platform) (cfg : Settings) (w : World)
    (gl : ScreenCaptureGL) {w1 : World} {gl1 : ScreenCaptureGL}
    (h : ScreenCaptureGL.configure P cfg w gl = some (0, w1, gl1)) :
    gl1.vm = create_identity_matrix ∧ w1.st.prog ≠ 0 := by
  obtain ⟨w3, gl3, -, -, -, -, hg⟩ := configure_success P cfg w gl h
  refine ⟨(setupGraphics_vm P w3 gl3 hg).1 rfl, ?_⟩
  obtain ⟨wa, hz, hw1⟩ := setupGraphics_success P w3 gl3 hg
  have hp := (flip_eq_zero false true wa hz).1
  rw [hw1, flip_st]
  exact hp

theorem callback_vm_st (P : Platform) (b : PixelBuffer) (w : World) (gl : ScreenCaptureGL)
    {w1 : World} {gl1 : ScreenCaptureGL}
    (h : sc_gl_frame_callback P b w gl = some (w1, gl1)) :
    gl1.vm = gl.vm ∧ w1.st = w.st := by
  unfold sc_gl_frame_callback at h
  split_ifs at h
  · simp only [Option.some.injEq, Prod.mk.injEq] at h
    obtain ⟨rfl, rfl⟩ := h
    exact ⟨rfl, rfl⟩
  · simp only [Option.some.injEq, Prod.mk.injEq] at h
    obtain ⟨rfl, rfl⟩ := h
    exact ⟨rfl, rfl⟩
  · split at h
    · simp only [Option.some.injEq, Prod.mk.injEq] at h
      obtain ⟨rfl, rfl⟩ := h
      exact ⟨rfl, rfl⟩
    · simp only at h
      split at h
      · exact absurd h (by simp)
      · split at h
        · exact absurd h (by simp)
        · simp only [Option.some.injEq, Prod.mk.injEq] at h
          obtain ⟨rfl, rfl⟩ := h
          exact ⟨rfl, by simp⟩
  · simp only [Option.some.injEq, Prod.mk.injEq] at h
    obtain ⟨rfl, rfl⟩ := h
    exact ⟨rfl, rfl⟩

/-- `draw` on a view matrix of placement shape: nothing at all when the
program is missing (debug build) or the format is not BGRA, otherwise the
six calls with the placement matrix of its arguments. -/
theorem draw_placement (P : Platform) (x y wd h : GLfloat) (w : World) (gl : ScreenCaptureGL)
    (a b c d : GLfloat) (hvm : gl.vm = placement_matrix a b c d) :
    (ScreenCaptureGL.draw P x y wd h w gl).1.st = w.st ∧
    (∃ a2 b2 c2 d2, (ScreenCaptureGL.draw P x y wd h w gl).2.vm = placement_matrix a2 b2 c2 d2) ∧
    (gl.settings.pixel_format = PixelFormat.SC_BGRA → w.st.prog ≠ 0 →
      ScreenCaptureGL.draw P x y wd h w gl =
        ({ st := w.st,
           log := w.log ++ [Event.glActiveTexture, Event.glBindTexture gl.tex0,
             Event.glUseProgram w.st.prog, Event.glBindVertexArray w.st.vao,
             Event.glUniformMatrix4fv w.st.u_vm (placement_matrix x y wd h),
             Event.glDrawArrays 0 6] },
         { gl with vm := placement_matrix x y wd h })) ∧
    (gl.settings.pixel_format ≠ PixelFormat.SC_BGRA →
      ScreenCaptureGL.draw P x y wd h w gl = (w, gl)) := by
  refine ⟨?_, ?_, ?_, ?_⟩
  · unfold ScreenCaptureGL.draw
    simp only
    split_ifs <;> rfl
  · unfold ScreenCaptureGL.draw
    simp only
    split_ifs
    · exact ⟨a, b, c, d, hvm⟩
    · exact ⟨x, y, wd, h, by simp [hvm, placement_matrix]⟩
    · exact ⟨a, b, c, d, hvm⟩
  · intro hf hp
    unfold ScreenCaptureGL.draw
    simp [hf, hp, hvm, placement_matrix, World.emit]
  · intro hf
    unfold ScreenCaptureGL.draw
    simp [hf]

/-- On every instance on which `configure` has succeeded the view matrix has
placement shape and the shared program exists. -/
theorem configured_invariant (P : Platform) (w : World) (gl : ScreenCaptureGL)
    (hc : Configured P w gl) :
    (∃ a b c d, gl.vm = placement_matrix a b c d) ∧ w.st.prog ≠ 0 := by
  induction hc with
  | configured cfg h =>
    obtain ⟨hv, hp⟩ := configure_success_vm_prog P cfg _ _ h
    exact ⟨⟨0, 0, 1, 1, hv⟩, hp⟩
  | step op _ happ ih =>
    obtain ⟨⟨a, b, c, d, hvm⟩, hprog⟩ := ih
    cases op with
    | init =>
      simp only [Op.apply, Option.some.injEq, Prod.mk.injEq] at happ
      obtain ⟨-, rfl, rfl⟩ := happ
      refine ⟨⟨a, b, c, d, hvm⟩, ?_⟩
      unfold ScreenCaptureGL.init sc_gl_create_mutex
      simp only
      split_ifs <;> exact hprog
    | configure cfg =>
      obtain ⟨hv, hp⟩ := configure_vm_prog P cfg _ _ happ
      refine ⟨?_, by rw [hp hprog]; exact hprog⟩
      rcases hv with hv | hv
      · exact ⟨a, b, c, d, hv.trans hvm⟩
      · exact ⟨0, 0, 1, 1, hv⟩
    | frame buf =>
      simp only [Op.apply, Option.map_eq_some', Prod.mk.injEq] at happ
      obtain ⟨⟨w2, gl2⟩, hcb, -, rfl, rfl⟩ := happ
      obtain ⟨hv, hs⟩ := callback_vm_st P buf _ _ hcb
      exact ⟨⟨a, b, c, d, hv.trans hvm⟩, by rw [hs]; exact hprog⟩
    | update =>
      simp only [Op.apply, Option.some.injEq, Prod.mk.injEq] at happ
      obtain ⟨-, rfl, rfl⟩ := happ
      unfold ScreenCaptureGL.update
      simp only
      split_ifs
      · exact ⟨⟨a, b, c, d, hvm⟩, by simpa using hprog⟩
      · exact ⟨⟨a, b, c, d, hvm⟩, by simpa using hprog⟩
    | draw x y wd ht =>
      simp only [Op.apply, Option.some.injEq, Prod.mk.injEq] at happ
      obtain ⟨-, rfl, rfl⟩ := happ
      obtain ⟨hs, hv, -, -⟩ := draw_placement P x y wd ht _ _ a b c d hvm
      exact ⟨hv, by rw [hs]; exact hprog⟩
    | flip hz vt =>
      simp only [Op.apply, Option.some.injEq, Prod.mk.injEq] at happ
      obtain ⟨-, rfl, rfl⟩ := happ
      exact ⟨⟨a, b, c, d, hvm⟩, by rw [flip_st]; exact hprog⟩
    | shutdown =>
      simp only [Op.apply, Option.some.injEq] at happ
      have h1 := congrArg (fun t => t.2.2.vm) happ
      have h2 := congrArg (fun t => t.2.1.st) happ
      simp only [ScreenCaptureGL.shutdown, sc_gl_destroy_mutex] at h1 h2
      refine ⟨⟨a, b, c, d, h1.symm.trans hvm⟩, ?_⟩
      rw [← h2]
      split_ifs <;> simpa using hprog
  | projection m _ ih =>
    obtain ⟨⟨a, b, c, d, hvm⟩, hprog⟩ := ih
    unfold ScreenCaptureGL.setProjectionMatrix
    split_ifs
    · exact ⟨⟨a, b, c, d, hvm⟩, hprog⟩
    · split
      · exact ⟨⟨a, b, c, d, hvm⟩, hprog⟩
      · exact ⟨⟨a, b, c, d, hvm⟩, by simpa using hprog⟩
  | start _ ih => exact ⟨ih.1, ih.2⟩
  | stop _ ih => exact ⟨ih.1, ih.2⟩

/-- C15: for every instance on which `configure()` has succeeded (whatever
operations, earlier `draw` calls with any arguments included, followed) and
for all x, y, w, h: the shared program exists, and `draw(x, y, w, h)` binds
the instance texture and uploads to `u_vm` the column-major matrix with cell
0 = w, cell 5 = h, cells 10 and 15 = 1, cell 12 = x, cell 13 = y and 0
elsewhere, which it also leaves in `vm`, before the draw call (when a later
failed `configure()` has stored a format other than BGRA, `draw` does
nothing); `draw()` without arguments is `draw(0, 0, output_width,
output_height)` with the stored dimensions converted to `float`. -/
theorem C15_draw_placement_matrix (P : Platform) (w : World) (gl : ScreenCaptureGL)
    (hc : Configured P w gl) (x y wd h : GLfloat) :
    w.st.prog ≠ 0 ∧
    (gl.settings.pixel_format = PixelFormat.SC_BGRA →
      ScreenCaptureGL.draw P x y wd h w gl =
        ({ st := w.st,
           log := w.log ++ [Event.glActiveTexture, Event.glBindTexture gl.tex0,
             Event.glUseProgram w.st.prog, Event.glBindVertexArray w.st.vao,
             Event.glUniformMatrix4fv w.st.u_vm
               [wd, 0, 0, 0, 0, h, 0, 0, 0, 0, 1, 0, x, y, 0, 1],
             Event.glDrawArrays 0 6] },
         { gl with vm := [wd, 0, 0, 0, 0, h, 0, 0, 0, 0, 1, 0, x, y, 0, 1] })) ∧
    (gl.settings.pixel_format ≠ PixelFormat.SC_BGRA →
      ScreenCaptureGL.draw P x y wd h w gl = (w, gl)) ∧
    ScreenCaptureGL.draw_default P w gl =
      ScreenCaptureGL.draw P 0 0 (P.int_to_float gl.settings.output_width)
        (P.int_to_float gl.settings.output_height) w gl := by
  obtain ⟨⟨a, b, c, d, hvm⟩, hprog⟩ := configured_invariant P w gl hc
  obtain ⟨-, -, hdraw, hnone⟩ := draw_placement P x y wd h w gl a b c d hvm
  exact ⟨hprog, fun hf => hdraw hf hprog, hnone, rfl⟩

/-- C15 applied to `draw(10, 20, 100, 50)` on the configured 1x1 instance
after an earlier `draw(1, 2, 3, 4)`. -/
theorem C15_draw_placement_matrix_witness :
    Configured Platform.ok world_drawn gl_drawn ∧
    gl_drawn.settings.pixel_format = PixelFormat.SC_BGRA ∧
    gl_drawn.vm = [3, 0, 0, 0, 0, 4, 0, 0, 0, 0, 1, 0, 1, 2, 0, 1] ∧
    (world_drawn.st.prog ≠ 0 ∧
    (gl_drawn.settings.pixel_format = PixelFormat.SC_BGRA →
      ScreenCaptureGL.draw Platform.ok 10 20 100 50 world_drawn gl_drawn =
        ({ st := world_drawn.st,
           log := world_drawn.log ++ [Event.glActiveTexture, Event.glBindTexture gl_drawn.tex0,
             Event.glUseProgram world_drawn.st.prog, Event.glBindVertexArray world_drawn.st.vao,
             Event.glUniformMatrix4fv world_drawn.st.u_vm
               [100, 0, 0, 0, 0, 50, 0, 0, 0, 0, 1, 0, 10, 20, 0, 1],
             Event.glDrawArrays 0 6] },
         { gl_drawn with vm := [100, 0, 0, 0, 0, 50, 0, 0, 0, 0, 1, 0, 10, 20, 0, 1] })) ∧
    (gl_drawn.settings.pixel_format ≠ PixelFormat.SC_BGRA →
      ScreenCaptureGL.draw Platform.ok 10 20 100 50 world_drawn gl_drawn =
        (world_drawn, gl_drawn)) ∧
    ScreenCaptureGL.draw_default Platform.ok world_drawn gl_drawn =
      ScreenCaptureGL.draw Platform.ok 0 0
        (Platform.ok.int_to_float gl_drawn.settings.output_width)
        (Platform.ok.int_to_float gl_drawn.settings.output_height) world_drawn gl_drawn) :=
  have hc : Configured Platform.ok world_drawn gl_drawn :=
    Configured.step (Op.draw 1 2 3 4)
      (Configured.configured settings_1x1
        (rfl : ScreenCaptureGL.configure Platform.ok settings_1x1 World.initial
          (ScreenCaptureGL.new settings_none) = some (0, world_1x1, gl_1x1)))
      (rfl : (Op.draw 1 2 3 4).apply Platform.ok world_1x1 gl_1x1 =
        some (0, world_drawn, gl_drawn))
  ⟨hc, by decide, rfl,
    C15_draw_placement_matrix Platform.ok world_drawn gl_drawn hc 10 20 100 50⟩

end sc
